import Mathlib

/-!
Shallow embedding of the pokemaker repository (septapod/pokemaker), covering
the database service layer (src/src/services/supabase.ts) and the creation
form logic (src/src/pages/CreatePokemon.tsx).  Remote database calls are
modelled as pure functions on an explicit database value; each call that can
fail on the network takes an optional injected backend error (a `DbErr`)
standing for the Supabase error object of that call.  JavaScript `number`
values appearing in the record are only stored and compared, never computed
with (except the integer gender-ratio arithmetic), so they are modelled as
`Int`.  Move lists are arrays whose elements are never inspected, modelled as
`List String`.
-/

namespace Pokemaker

/-- Executable model of the JavaScript string method `trim`: drop leading
and trailing whitespace.  (Defined on the character list so that concrete
witnesses evaluate inside the kernel.) -/
def strTrim (s : String) : String :=
  ⟨((s.data.dropWhile Char.isWhitespace).reverse.dropWhile Char.isWhitespace).reverse⟩

/-- Executable model of the JavaScript string method `toLowerCase`, used by
the case-insensitive `ilike` match. -/
def strToLower (s : String) : String :=
  ⟨s.data.map Char.toLower⟩

/-- Backend error object (code and message), as carried by the Supabase
client and inspected by the service functions. -/
structure DbErr where
  code : String
  message : String
deriving DecidableEq, Repr

/-- Ability slot: a name plus a free-text description
(`{ name, description }` in pokemon.types). -/
structure Ability where
  name : String
  description : String
deriving DecidableEq, Repr

/-- Insert payload of `createPokemon` (`Omit<Pokemon, id | createdAt |
updatedAt>`): `name` and `typePrimary` are required, everything else is
optional.  Fields follow the column list of the insert at
src/src/services/supabase.ts lines 40-104. -/
structure PokemonData where
  userId : Option String := none
  name : String
  pokedexNumber : Option Int := none
  category : Option String := none
  typePrimary : String
  typeSecondary : Option String := none
  color : Option String := none
  heightValue : Option Int := none
  heightUnit : Option String := none
  weightValue : Option Int := none
  weightUnit : Option String := none
  shape : Option String := none
  pokedexEntry : Option String := none
  hp : Option Int := none
  attack : Option Int := none
  defense : Option Int := none
  specialAttack : Option Int := none
  specialDefense : Option Int := none
  speed : Option Int := none
  ability1 : Option Ability := none
  ability2 : Option Ability := none
  hiddenAbility : Option Ability := none
  evolutionStage : Option String := none
  evolvesFrom : Option String := none
  evolvesInto : Option String := none
  evolutionMethod : Option String := none
  eggGroup1 : Option String := none
  eggGroup2 : Option String := none
  genderRatioMale : Option Int := none
  genderRatioFemale : Option Int := none
  isGenderless : Option Bool := none
  eggCycles : Option Int := none
  catchRate : Option Int := none
  baseFriendship : Option Int := none
  growthRate : Option String := none
  evYield : Option String := none
  originalDrawingUrl : Option String := none
  aiGeneratedImageUrl : Option String := none
  physicalAppearance : Option String := none
  imageDescription : Option String := none
  levelUpMoves : Option (List String) := none
  tmMoves : Option (List String) := none
  eggMoves : Option (List String) := none
deriving DecidableEq, Repr

/-- Stored database row of the `pokemon` table.  Ability slots are
flattened into name/description columns exactly as the insert does
(`ability_1_name: pokemon.ability1?.name`, etc.).  The snake_case columns
are written here in camelCase; `convertDatabaseToPokemon` of the source is
the corresponding renaming and is modelled as the identity on this type. -/
structure Row where
  id : Nat
  userId : Option String
  name : String
  pokedexNumber : Option Int
  category : Option String
  typePrimary : String
  typeSecondary : Option String
  color : Option String
  heightValue : Option Int
  heightUnit : Option String
  weightValue : Option Int
  weightUnit : Option String
  shape : Option String
  pokedexEntry : Option String
  hp : Option Int
  attack : Option Int
  defense : Option Int
  specialAttack : Option Int
  specialDefense : Option Int
  speed : Option Int
  ability1Name : Option String
  ability1Description : Option String
  ability2Name : Option String
  ability2Description : Option String
  hiddenAbilityName : Option String
  hiddenAbilityDescription : Option String
  evolutionStage : Option String
  evolvesFrom : Option String
  evolvesInto : Option String
  evolutionMethod : Option String
  eggGroup1 : Option String
  eggGroup2 : Option String
  genderRatioMale : Option Int
  genderRatioFemale : Option Int
  isGenderless : Option Bool
  eggCycles : Option Int
  catchRate : Option Int
  baseFriendship : Option Int
  growthRate : Option String
  evYield : Option String
  originalDrawingUrl : Option String
  aiGeneratedImageUrl : Option String
  physicalAppearance : Option String
  imageDescription : Option String
  levelUpMoves : Option (List String)
  tmMoves : Option (List String)
  eggMoves : Option (List String)
deriving DecidableEq, Repr

/-- Update payload of `updatePokemon` (`Partial<Pokemon>`): every field is
optional; `none` models a JavaScript `undefined` (field absent). -/
structure PokemonPatch where
  name : Option String := none
  pokedexNumber : Option Int := none
  category : Option String := none
  typePrimary : Option String := none
  typeSecondary : Option String := none
  color : Option String := none
  heightValue : Option Int := none
  heightUnit : Option String := none
  weightValue : Option Int := none
  weightUnit : Option String := none
  shape : Option String := none
  pokedexEntry : Option String := none
  hp : Option Int := none
  attack : Option Int := none
  defense : Option Int := none
  specialAttack : Option Int := none
  specialDefense : Option Int := none
  speed : Option Int := none
  ability1 : Option Ability := none
  ability2 : Option Ability := none
  hiddenAbility : Option Ability := none
  evolutionStage : Option String := none
  evolvesFrom : Option String := none
  evolvesInto : Option String := none
  evolutionMethod : Option String := none
  eggGroup1 : Option String := none
  eggGroup2 : Option String := none
  genderRatioMale : Option Int := none
  genderRatioFemale : Option Int := none
  isGenderless : Option Bool := none
  eggCycles : Option Int := none
  catchRate : Option Int := none
  baseFriendship : Option Int := none
  growthRate : Option String := none
  evYield : Option String := none
  originalDrawingUrl : Option String := none
  aiGeneratedImageUrl : Option String := none
  physicalAppearance : Option String := none
  imageDescription : Option String := none
  levelUpMoves : Option (List String) := none
  tmMoves : Option (List String) := none
  eggMoves : Option (List String) := none
deriving DecidableEq, Repr

/-- The remote `pokemon` table: a list of rows plus the id supply used for
backend-assigned identifiers. -/
structure DB where
  rows : List Row := []
  nextId : Nat := 0
deriving DecidableEq, Repr

/-- Well-formed database: every stored row has an identifier below the id
supply, so a freshly assigned identifier is distinct from all stored ones. -/
def DBWf (db : DB) : Prop :=
  ∀ r ∈ db.rows, r.id < db.nextId

instance (db : DB) : Decidable (DBWf db) := by
  unfold DBWf; infer_instance

/-- Row built by the insert of `createPokemon` (supabase.ts lines 40-104):
each column is copied from the payload, ability slots flattened through the
optional chaining `pokemon.ability1?.name`, and
`user_id: pokemon.userId || null`. -/
def rowOfData (id : Nat) (p : PokemonData) : Row :=
  { id := id
    userId := match p.userId with
      | some u => if u = "" then none else some u
      | none => none
    name := p.name
    pokedexNumber := p.pokedexNumber
    category := p.category
    typePrimary := p.typePrimary
    typeSecondary := p.typeSecondary
    color := p.color
    heightValue := p.heightValue
    heightUnit := p.heightUnit
    weightValue := p.weightValue
    weightUnit := p.weightUnit
    shape := p.shape
    pokedexEntry := p.pokedexEntry
    hp := p.hp
    attack := p.attack
    defense := p.defense
    specialAttack := p.specialAttack
    specialDefense := p.specialDefense
    speed := p.speed
    ability1Name := p.ability1.map Ability.name
    ability1Description := p.ability1.map Ability.description
    ability2Name := p.ability2.map Ability.name
    ability2Description := p.ability2.map Ability.description
    hiddenAbilityName := p.hiddenAbility.map Ability.name
    hiddenAbilityDescription := p.hiddenAbility.map Ability.description
    evolutionStage := p.evolutionStage
    evolvesFrom := p.evolvesFrom
    evolvesInto := p.evolvesInto
    evolutionMethod := p.evolutionMethod
    eggGroup1 := p.eggGroup1
    eggGroup2 := p.eggGroup2
    genderRatioMale := p.genderRatioMale
    genderRatioFemale := p.genderRatioFemale
    isGenderless := p.isGenderless
    eggCycles := p.eggCycles
    catchRate := p.catchRate
    baseFriendship := p.baseFriendship
    growthRate := p.growthRate
    evYield := p.evYield
    originalDrawingUrl := p.originalDrawingUrl
    aiGeneratedImageUrl := p.aiGeneratedImageUrl
    physicalAppearance := p.physicalAppearance
    imageDescription := p.imageDescription
    levelUpMoves := p.levelUpMoves
    tmMoves := p.tmMoves
    eggMoves := p.eggMoves }

/-- Error message assembled by `createPokemon` when the insert fails
(supabase.ts lines 117-129). -/
def createErrorMessage (e : DbErr) : String :=
  let base := "Failed to save Pokémon. "
  if e.code = "23502" then
    base ++ "Missing required field: " ++
      (if e.message = "" then "Please check all required fields." else e.message)
  else if e.code = "23505" then base ++ "This Pokémon already exists."
  else if e.message = "" then base ++ "Please try again."
  else base ++ e.message

/-- Error message assembled by `updatePokemon` when the update fails
(supabase.ts lines 360-370). -/
def updateErrorMessage (e : DbErr) : String :=
  let base := "Failed to update Pokémon. "
  if e.code = "23502" then
    base ++ "Missing required field: " ++
      (if e.message = "" then "Please check all required fields." else e.message)
  else if e.message = "" then base ++ "Please try again."
  else base ++ e.message

/-- Model of `createPokemon` (supabase.ts lines 37-133): insert a new row
with a backend-assigned identifier and return the created record, or throw
the assembled error message when the backend reports an error. -/
def createPokemon (fault : Option DbErr) (p : PokemonData) (db : DB) :
    Except String (DB × Row) :=
  match fault with
  | some e => .error (createErrorMessage e)
  | none =>
    let row := rowOfData db.nextId p
    .ok ({ rows := db.rows ++ [row], nextId := db.nextId + 1 }, row)

/-- Model of `getPokemonById` (supabase.ts lines 178-191): select a single
row by identifier; a backend error, or `.single()` finding no unique row,
is thrown. -/
def getPokemonById (fault : Option DbErr) (id : Nat) (db : DB) :
    Except String Row :=
  match fault with
  | some e => .error e.message
  | none =>
    match db.rows.filter (fun r => r.id == id) with
    | [r] => .ok r
    | _ => .error "PGRST116"

/-- Rows matching a name case-insensitively, the predicate of the
`.ilike('name', name)` filter of `getPokemonByName`. -/
def matchesByNameCI (name : String) (db : DB) : List Row :=
  db.rows.filter (fun r => strToLower r.name == strToLower name)

/-- Try-block of `getPokemonByName` (supabase.ts lines 199-215): the
case-insensitive single-row lookup.  With no injected fault, `.single()`
reports code PGRST116 when zero (or several) rows match, which the source
maps to `null`; any other backend error code is rethrown. -/
def getPokemonByNameTry (fault : Option DbErr) (name : String) (db : DB) :
    Except String (Option Row) :=
  match fault with
  | some e => if e.code = "PGRST116" then .ok none else .error e.message
  | none =>
    match matchesByNameCI name db with
    | [r] => .ok (some r)
    | _ => .ok none

/-- Model of `getPokemonByName` (supabase.ts lines 198-220): the try-block
wrapped in the catch-all that logs and returns `null`, so the function
never throws. -/
def getPokemonByName (fault : Option DbErr) (name : String) (db : DB) :
    Option Row :=
  match getPokemonByNameTry fault name db with
  | .ok v => v
  | .error _ => none

/-- Model of `findOrCreatePokemonByName` (supabase.ts lines 228-262): skip
blank names, look the name up, create a minimal record (trimmed name,
default primary type Normal, optional owner) when the lookup returns null,
and swallow any creation error by returning null. -/
def findOrCreatePokemonByName (lookupFault createFault : Option DbErr)
    (name : String) (userId : Option String) (db : DB) : DB × Option Row :=
  if name = "" || strTrim name = "" then (db, none)
  else
    match getPokemonByName lookupFault name db with
    | some p => (db, some p)
    | none =>
      match createPokemon createFault
          { name := strTrim name, typePrimary := "Normal", userId := userId } db with
      | .ok (db1, row) => (db1, some row)
      | .error _ => (db, none)

/-- Field merge for a column guarded by a JavaScript truthiness check on a
string (`...(pokemon.category && { category: pokemon.category })`): an
absent or empty string leaves the stored value unchanged. -/
def updStr (v : Option String) (old : Option String) : Option String :=
  match v with
  | some s => if s = "" then old else some s
  | none => old

/-- Variant of `updStr` for the non-nullable columns `name` and
`type_primary`. -/
def updStrReq (v : Option String) (old : String) : String :=
  match v with
  | some s => if s = "" then old else s
  | none => old

/-- Field merge for a column guarded by `!== undefined`: any present value
is written, including 0, false or the empty string. -/
def updDef {α : Type} (v old : Option α) : Option α :=
  match v with
  | some x => some x
  | none => old

/-- Field merge for a move list guarded by a truthiness check: a JavaScript
array is truthy even when empty, so any present list is written. -/
def updList (v old : Option (List String)) : Option (List String) :=
  match v with
  | some l => some l
  | none => old

/-- Field merge for an ability-name column guarded by
`pokemon.ability1?.name && ...`: written only when the ability slot is
present and its name is nonempty. -/
def updAbilityName (a : Option Ability) (old : Option String) : Option String :=
  match a with
  | some ab => if ab.name = "" then old else some ab.name
  | none => old

/-- Field merge for an ability-description column guarded by
`pokemon.ability1?.description && ...`. -/
def updAbilityDesc (a : Option Ability) (old : Option String) : Option String :=
  match a with
  | some ab => if ab.description = "" then old else some ab.description
  | none => old

/-- Field-by-field merge of the update object built by `updatePokemon`
(supabase.ts lines 282-346), transcribing each conditional spread in source
order: truthiness guards through `updStr`, `updStrReq`, `updList`,
`updAbilityName` and `updAbilityDesc`; `!== undefined` guards through
`updDef`. -/
def applyPatch (p : PokemonPatch) (r : Row) : Row :=
  { r with
    name := updStrReq p.name r.name
    pokedexNumber := updDef p.pokedexNumber r.pokedexNumber
    category := updStr p.category r.category
    typePrimary := updStrReq p.typePrimary r.typePrimary
    typeSecondary := updDef p.typeSecondary r.typeSecondary
    color := updStr p.color r.color
    heightValue := updDef p.heightValue r.heightValue
    heightUnit := updStr p.heightUnit r.heightUnit
    weightValue := updDef p.weightValue r.weightValue
    weightUnit := updStr p.weightUnit r.weightUnit
    shape := updStr p.shape r.shape
    pokedexEntry := updStr p.pokedexEntry r.pokedexEntry
    hp := updDef p.hp r.hp
    attack := updDef p.attack r.attack
    defense := updDef p.defense r.defense
    specialAttack := updDef p.specialAttack r.specialAttack
    specialDefense := updDef p.specialDefense r.specialDefense
    speed := updDef p.speed r.speed
    ability1Name := updAbilityName p.ability1 r.ability1Name
    ability1Description := updAbilityDesc p.ability1 r.ability1Description
    ability2Name := updAbilityName p.ability2 r.ability2Name
    ability2Description := updAbilityDesc p.ability2 r.ability2Description
    hiddenAbilityName := updAbilityName p.hiddenAbility r.hiddenAbilityName
    hiddenAbilityDescription := updAbilityDesc p.hiddenAbility r.hiddenAbilityDescription
    evolutionStage := updStr p.evolutionStage r.evolutionStage
    evolvesFrom := updStr p.evolvesFrom r.evolvesFrom
    evolvesInto := updStr p.evolvesInto r.evolvesInto
    evolutionMethod := updStr p.evolutionMethod r.evolutionMethod
    eggGroup1 := updStr p.eggGroup1 r.eggGroup1
    eggGroup2 := updStr p.eggGroup2 r.eggGroup2
    genderRatioMale := updDef p.genderRatioMale r.genderRatioMale
    genderRatioFemale := updDef p.genderRatioFemale r.genderRatioFemale
    isGenderless := updDef p.isGenderless r.isGenderless
    eggCycles := updDef p.eggCycles r.eggCycles
    catchRate := updDef p.catchRate r.catchRate
    baseFriendship := updDef p.baseFriendship r.baseFriendship
    growthRate := updStr p.growthRate r.growthRate
    evYield := updStr p.evYield r.evYield
    originalDrawingUrl := updStr p.originalDrawingUrl r.originalDrawingUrl
    aiGeneratedImageUrl := updStr p.aiGeneratedImageUrl r.aiGeneratedImageUrl
    physicalAppearance := updDef p.physicalAppearance r.physicalAppearance
    imageDescription := updDef p.imageDescription r.imageDescription
    levelUpMoves := updList p.levelUpMoves r.levelUpMoves
    tmMoves := updList p.tmMoves r.tmMoves
    eggMoves := updList p.eggMoves r.eggMoves }

/-- Permission error thrown by `updatePokemon` (supabase.ts line 276). -/
def permissionEditMsg : String := "You do not have permission to edit this Pokémon."

/-- Permission error thrown by `deletePokemon` (supabase.ts line 386). -/
def permissionDeleteMsg : String := "You do not have permission to delete this Pokémon."

/-- Ownership check shared by `updatePokemon` and `deletePokemon` (lines
273-278 and 383-388): when a user identifier is supplied, fetch the stored
record and throw the given permission error if its owner is set and
differs. -/
def verifyOwnership (getFault : Option DbErr) (id : Nat)
    (userId : Option String) (msg : String) (db : DB) : Except String Unit :=
  match userId with
  | none => .ok ()
  | some u =>
    match getPokemonById getFault id db with
    | .error e => .error e
    | .ok existing =>
      match existing.userId with
      | some owner => if owner ≠ u then .error msg else .ok ()
      | none => .ok ()

/-- Model of `updatePokemon` (supabase.ts lines 271-374): optional ownership
check, then an update writing only the guarded fields, returning the updated
single row or throwing the assembled error message. -/
def updatePokemon (getFault updFault : Option DbErr) (id : Nat)
    (p : PokemonPatch) (userId : Option String) (db : DB) :
    Except String (DB × Row) :=
  match verifyOwnership getFault id userId permissionEditMsg db with
  | .error e => .error e
  | .ok _ =>
    match updFault with
    | some e => .error (updateErrorMessage e)
    | none =>
      match db.rows.filter (fun r => r.id == id) with
      | [r] =>
        .ok ({ db with rows := db.rows.map (fun q => if q.id == id then applyPatch p q else q) },
             applyPatch p r)
      | _ => .error (updateErrorMessage
          { code := "PGRST116", message := "JSON object requested, multiple (or no) rows returned" })

/-- Model of `deletePokemon` (supabase.ts lines 381-399): optional ownership
check, then remove the row. -/
def deletePokemon (getFault delFault : Option DbErr) (id : Nat)
    (userId : Option String) (db : DB) : Except String DB :=
  match verifyOwnership getFault id userId permissionDeleteMsg db with
  | .error e => .error e
  | .ok _ =>
    match delFault with
    | some e => .error e.message
    | none => .ok { db with rows := db.rows.filter (fun r => r.id != id) }

/-!
Client-side model of the creation form (src/src/pages/CreatePokemon.tsx).
The React component state relevant to the save paths is collected in
`ClientState`; each save path is a pure function from form data, component
state and the database to their updated values, with injected backend
faults for the network calls it performs.
-/

/-- Auto-save status state of the form
(`useState of saved | saving | error`, line 133). -/
inductive AutoStatus where
  | saved
  | saving
  | error
deriving DecidableEq, Repr

/-- Component state of `CreatePokemon` used by the save paths: the
remembered draft identifier, auto-save status, whether `lastAutoSave` has
been set, the dismissible error banner, the generated-artwork URL held in
`aiGeneratedImage` (empty string when none), the edit-mode flag with the
identifier of the record being edited, and the original-drawing URL of that
record. -/
structure ClientState where
  savedPokemonId : Option Nat := none
  autoSaveStatus : AutoStatus := .saved
  lastAutoSave : Bool := false
  saveError : Option String := none
  aiGeneratedImage : String := ""
  editMode : Bool := false
  existingPokemonId : Option Nat := none
  existingOriginalDrawingUrl : Option String := none
deriving DecidableEq, Repr

/-- Injected backend faults for the calls issued by `linkEvolutions`: the
lookup, stub creation and counterpart update of each of the two phases. -/
structure LinkFaults where
  lookupInto : Option DbErr := none
  createInto : Option DbErr := none
  updateInto : Option DbErr := none
  lookupFrom : Option DbErr := none
  createFrom : Option DbErr := none
  updateFrom : Option DbErr := none
deriving DecidableEq, Repr

/-- Injected backend faults of one save path: the primary create/update
call plus the evolution-linking calls. -/
structure SaveFaults where
  primary : Option DbErr := none
  link : LinkFaults := {}
deriving DecidableEq, Repr

/-- JavaScript truthiness of an optional string: false for an absent value
and for the empty string. -/
def jsTruthyStr : Option String → Bool
  | some s => s != ""
  | none => false

/-- Preparation of the save payload shared by `onSubmit` (lines 251-258),
`handleSaveDraft` (lines 307-316) and `autoSave` (lines 360-369): the
original-drawing URL falls back to the one of the record being edited
(`data.originalDrawingUrl || existingPokemon?.originalDrawingUrl`), and the
generated artwork becomes `aiGeneratedImage || undefined`. -/
def preparePokemonData (s : ClientState) (form : PokemonData) : PokemonData :=
  { form with
    originalDrawingUrl :=
      match form.originalDrawingUrl with
      | some u => if u = "" then s.existingOriginalDrawingUrl else some u
      | none => s.existingOriginalDrawingUrl
    aiGeneratedImageUrl :=
      if s.aiGeneratedImage = "" then none else some s.aiGeneratedImage }

/-- View of a full save payload as the `Partial<Pokemon>` argument the save
paths pass to `updatePokemon`: every field is present with its value. -/
def patchOfData (p : PokemonData) : PokemonPatch :=
  { name := some p.name
    pokedexNumber := p.pokedexNumber
    category := p.category
    typePrimary := some p.typePrimary
    typeSecondary := p.typeSecondary
    color := p.color
    heightValue := p.heightValue
    heightUnit := p.heightUnit
    weightValue := p.weightValue
    weightUnit := p.weightUnit
    shape := p.shape
    pokedexEntry := p.pokedexEntry
    hp := p.hp
    attack := p.attack
    defense := p.defense
    specialAttack := p.specialAttack
    specialDefense := p.specialDefense
    speed := p.speed
    ability1 := p.ability1
    ability2 := p.ability2
    hiddenAbility := p.hiddenAbility
    evolutionStage := p.evolutionStage
    evolvesFrom := p.evolvesFrom
    evolvesInto := p.evolvesInto
    evolutionMethod := p.evolutionMethod
    eggGroup1 := p.eggGroup1
    eggGroup2 := p.eggGroup2
    genderRatioMale := p.genderRatioMale
    genderRatioFemale := p.genderRatioFemale
    isGenderless := p.isGenderless
    eggCycles := p.eggCycles
    catchRate := p.catchRate
    baseFriendship := p.baseFriendship
    growthRate := p.growthRate
    evYield := p.evYield
    originalDrawingUrl := p.originalDrawingUrl
    aiGeneratedImageUrl := p.aiGeneratedImageUrl
    physicalAppearance := p.physicalAppearance
    imageDescription := p.imageDescription
    levelUpMoves := p.levelUpMoves
    tmMoves := p.tmMoves
    eggMoves := p.eggMoves }

/-- Evolution-stage value written onto the forward evolution
(`pokemonData.evolutionStage === Basic ? Stage 1 : Stage 2`, line 424). -/
def evolutionStagePatch (pd : PokemonData) : String :=
  if pd.evolutionStage = some "Basic" then "Stage 1" else "Stage 2"

/-- Backlink written onto the forward evolution by `linkEvolutions`
(CreatePokemon.tsx lines 422-425). -/
def evolvesFromPatch (pd : PokemonData) : PokemonPatch :=
  { evolvesFrom := some pd.name,
    evolutionStage := some (evolutionStagePatch pd) }

/-- Backlink written onto the prior evolution by `linkEvolutions`
(CreatePokemon.tsx lines 435-437). -/
def evolvesIntoPatch (pd : PokemonData) : PokemonPatch :=
  { evolvesInto := some pd.name }

/-- First block of the try of `linkEvolutions` (CreatePokemon.tsx lines
417-428), handling "Evolves Into".  An `Except` error carries the database
as of the failure point, since remote writes made before a thrown error
persist.  `findOrCreatePokemonByName` is called without a user identifier,
exactly as in the source; only `updatePokemon` can throw here. -/
def linkEvolvesIntoStep (f : LinkFaults) (pd : PokemonData) (db : DB) :
    Except DB DB :=
  if jsTruthyStr pd.evolvesInto then
    match findOrCreatePokemonByName f.lookupInto f.createInto
        (pd.evolvesInto.getD "") none db with
    | (dbA, some evo) =>
      match updatePokemon none f.updateInto evo.id (evolvesFromPatch pd) none dbA with
      | .ok (dbB, _) => .ok dbB
      | .error _ => .error dbA
    | (dbA, none) => .ok dbA
  else .ok db

/-- Second block of the try of `linkEvolutions` (CreatePokemon.tsx lines
431-440), handling "Evolves From". -/
def linkEvolvesFromStep (f : LinkFaults) (pd : PokemonData) (db : DB) :
    Except DB DB :=
  if jsTruthyStr pd.evolvesFrom then
    match findOrCreatePokemonByName f.lookupFrom f.createFrom
        (pd.evolvesFrom.getD "") none db with
    | (dbA, some prior) =>
      match updatePokemon none f.updateFrom prior.id (evolvesIntoPatch pd) none dbA with
      | .ok (dbB, _) => .ok dbB
      | .error _ => .error dbA
    | (dbA, none) => .ok dbA
  else .ok db

/-- Try-block of `linkEvolutions`: the two blocks in sequence, an error in
the first one skipping the second. -/
def linkEvolutionsTry (f : LinkFaults) (pd : PokemonData) (db : DB) :
    Except DB DB :=
  match linkEvolvesIntoStep f pd db with
  | .error d => .error d
  | .ok db1 => linkEvolvesFromStep f pd db1

/-- Database carried by either constructor of the linking try-block. -/
def dbOfExcept : Except DB DB → DB
  | .ok d => d
  | .error d => d

/-- Model of `linkEvolutions` (CreatePokemon.tsx lines 415-445): the
try-block with every error swallowed by the catch, so the function always
returns and never throws. -/
def linkEvolutions (f : LinkFaults) (pd : PokemonData) (db : DB) : DB :=
  dbOfExcept (linkEvolutionsTry f pd db)

/-- Primary create-or-update decision of `onSubmit` (CreatePokemon.tsx
lines 260-277): update the record being edited, else update the
auto-saved draft, else create a brand-new record.  Returns the database
after the write together with `finalPokemonId`. -/
def submitPrimarySave (fault : Option DbErr) (s : ClientState)
    (pd : PokemonData) (db : DB) : Except String (DB × Nat) :=
  match s.editMode, s.existingPokemonId with
  | true, some eid =>
    match updatePokemon none fault eid (patchOfData pd) none db with
    | .ok (db1, _) => .ok (db1, eid)
    | .error e => .error e
  | _, _ =>
    match s.savedPokemonId with
    | some sid =>
      match updatePokemon none fault sid (patchOfData pd) none db with
      | .ok (db1, _) => .ok (db1, sid)
      | .error e => .error e
    | none =>
      match createPokemon fault pd db with
      | .ok (db1, row) => .ok (db1, row.id)
      | .error e => .error e

/-- Result of a form submission: the component state, the database, and the
navigation target (`navigate(/pokemon/id)`) when the save succeeded. -/
structure SubmitResult where
  state : ClientState
  db : DB
  navigateTo : Option Nat
deriving DecidableEq, Repr

/-- Model of `onSubmit` (CreatePokemon.tsx lines 241-296): clear the error
banner, run the primary create/update, link evolutions (whose failure is
swallowed inside `linkEvolutions`), then navigate to the detail page; a
primary-save error is caught and shown in the error banner with no
navigation. -/
def onSubmit (f : SaveFaults) (s : ClientState) (form : PokemonData)
    (db : DB) : SubmitResult :=
  let s0 := { s with saveError := none }
  let pd := preparePokemonData s form
  match submitPrimarySave f.primary s pd db with
  | .error e => { state := { s0 with saveError := some e }, db := db, navigateTo := none }
  | .ok (db1, finalId) =>
    { state := s0, db := linkEvolutions f.link pd db1, navigateTo := some finalId }

/-- Model of `handleSaveDraft` (CreatePokemon.tsx lines 299-344): update the
remembered draft or create it for the first time (remembering the new
identifier), then link evolutions; the page is not left.  A primary-save
error is caught and shown in the error banner. -/
def handleSaveDraft (f : SaveFaults) (s : ClientState) (form : PokemonData)
    (db : DB) : ClientState × DB :=
  let s0 := { s with saveError := none }
  let pd := preparePokemonData s form
  match s.savedPokemonId with
  | some sid =>
    match updatePokemon none f.primary sid (patchOfData pd) none db with
    | .error e => ({ s0 with saveError := some e }, db)
    | .ok (db1, _) => (s0, linkEvolutions f.link pd db1)
  | none =>
    match createPokemon f.primary pd db with
    | .error e => ({ s0 with saveError := some e }, db)
    | .ok (db1, row) =>
      ({ s0 with savedPokemonId := some row.id }, linkEvolutions f.link pd db1)

/-- Model of `autoSave` (CreatePokemon.tsx lines 347-387): set the status to
saving; skip entirely when the name is empty or whitespace-only, ending as
saved; otherwise update the remembered draft or create it (remembering the
new identifier); on success the status becomes saved, `lastAutoSave` is
set and the error banner cleared; on failure the error is only logged, the
status becomes error, and the error banner is left untouched.  `autoSave`
does not call `linkEvolutions`. -/
def autoSaveRun (f : SaveFaults) (s : ClientState) (form : PokemonData)
    (db : DB) : ClientState × DB :=
  let s0 := { s with autoSaveStatus := .saving }
  if form.name = "" || strTrim form.name = "" then
    ({ s0 with autoSaveStatus := .saved }, db)
  else
    let pd := preparePokemonData s form
    let res : Except String (ClientState × DB) :=
      match s.savedPokemonId with
      | some sid =>
        match updatePokemon none f.primary sid (patchOfData pd) none db with
        | .ok (db1, _) => .ok (s0, db1)
        | .error e => .error e
      | none =>
        match createPokemon f.primary pd db with
        | .ok (db1, row) => .ok ({ s0 with savedPokemonId := some row.id }, db1)
        | .error e => .error e
    match res with
    | .ok (s1, db1) =>
      ({ s1 with autoSaveStatus := .saved, lastAutoSave := true, saveError := none }, db1)
    | .error _ => ({ s0 with autoSaveStatus := .error }, db)

/-- Text rendered by the always-visible auto-save status indicator
(CreatePokemon.tsx lines 476-490), with the formatted time of the last
auto-save passed in. -/
def autoSaveIndicatorText (status : AutoStatus) (lastAutoSave : Bool)
    (timeText : String) : String :=
  match status with
  | .saving => "Saving..."
  | .saved =>
    if lastAutoSave then "All changes saved at " ++ timeText
    else "Auto-save enabled"
  | .error => "Auto-save failed - use Save Draft button"

/-- Watched male gender ratio (`watch(genderRatioMale) || 0`, line 150). -/
def watchedGenderRatioMale (form : PokemonData) : Int :=
  match form.genderRatioMale with
  | some v => if v = 0 then 0 else v
  | none => 0

/-- Gender-ratio sync effect (CreatePokemon.tsx lines 153-158): the female
ratio is recomputed as `100 - male` from the watched (defaulted) male
value; the guard against undefined/null is always true after the `|| 0`
default. -/
def syncGenderRatioFemale (form : PokemonData) : PokemonData :=
  let m := watchedGenderRatioMale form
  { form with genderRatioFemale := some (100 - m) }

/-!
Session-level machine for the duplicate-prevention invariant.  A fresh
creation session of `CreatePokemon` runs a sequence of save operations
(debounced auto-saves, manual draft-saves, final submits), each of which
may succeed or fail on the backend.  `sessStep` transcribes exactly the
create-versus-update skeleton of `autoSave` (lines 371-377),
`handleSaveDraft` (lines 318-331) and `onSubmit` (lines 260-277 and the
navigation on line 287): an operation updates the remembered
`savedPokemonId` when one is present and creates otherwise; a successful
create in `autoSave`/`handleSaveDraft` stores the backend-assigned
identifier via `setSavedPokemonId`; a successful submit navigates away,
ending the session (the create branch of `onSubmit` keeps the new
identifier only in the local `finalPokemonId`).
-/

/-- One save operation of an editing session: an auto-save (with the
emptiness of the name field at firing time), a manual draft-save, or a
final submit; `ok` tells whether the backend write succeeds. -/
inductive SaveOp where
  | autoOp (nameEmpty : Bool) (ok : Bool)
  | draftOp (ok : Bool)
  | submitOp (ok : Bool)
deriving DecidableEq, Repr

/-- Backend write issued by a save operation: an insert (with the
backend-assigned identifier) or an update against an existing identifier. -/
inductive WriteEv where
  | createEv (id : Nat) (ok : Bool)
  | updateEv (id : Nat) (ok : Bool)
deriving DecidableEq, Repr

/-- Whether a backend write succeeded. -/
def WriteEv.isOk : WriteEv → Bool
  | .createEv _ ok => ok
  | .updateEv _ ok => ok

/-- Whether a backend write is a successful record creation. -/
def WriteEv.isCreateOk : WriteEv → Bool
  | .createEv _ ok => ok
  | .updateEv _ _ => false

/-- Whether a backend write is a failed record creation. -/
def WriteEv.isFailedCreate : WriteEv → Bool
  | .createEv _ ok => !ok
  | .updateEv _ _ => false

/-- Whether a backend write is an update (successful or not) against the
given identifier. -/
def WriteEv.isUpdateTo (i : Nat) : WriteEv → Bool
  | .updateEv j _ => j == i
  | .createEv _ _ => false

/-- Number of records created (successful inserts) in a trace of backend
writes. -/
def createdCount (tr : List WriteEv) : Nat :=
  (tr.filter WriteEv.isCreateOk).length

/-- Session state for the duplicate-prevention invariant: the remembered
draft identifier, whether the session has ended (navigation away after a
successful final submit), and the backend id supply. -/
structure SessState where
  savedPokemonId : Option Nat
  ended : Bool
  nextId : Nat
deriving DecidableEq, Repr

/-- State of a fresh creation session: nothing persisted yet. -/
def freshSession (startId : Nat) : SessState :=
  { savedPokemonId := none, ended := false, nextId := startId }

/-- One step of an editing session, emitting the backend writes it
issues.  After the session has ended (navigation away) no further save of
this session runs. -/
def sessStep (s : SessState) (op : SaveOp) : SessState × List WriteEv :=
  if s.ended then (s, [])
  else
    match op with
    | .autoOp nameEmpty ok =>
      if nameEmpty then (s, [])
      else
        match s.savedPokemonId with
        | some i => (s, [.updateEv i ok])
        | none =>
          if ok then
            ({ s with savedPokemonId := some s.nextId, nextId := s.nextId + 1 },
             [.createEv s.nextId true])
          else (s, [.createEv s.nextId false])
    | .draftOp ok =>
      match s.savedPokemonId with
      | some i => (s, [.updateEv i ok])
      | none =>
        if ok then
          ({ s with savedPokemonId := some s.nextId, nextId := s.nextId + 1 },
           [.createEv s.nextId true])
        else (s, [.createEv s.nextId false])
    | .submitOp ok =>
      match s.savedPokemonId with
      | some i =>
        if ok then ({ s with ended := true }, [.updateEv i true])
        else (s, [.updateEv i false])
      | none =>
        if ok then
          ({ s with ended := true, nextId := s.nextId + 1 },
           [.createEv s.nextId true])
        else (s, [.createEv s.nextId false])

/-- Run of an editing session: fold the save operations, concatenating the
emitted backend writes. -/
def sessRun (s : SessState) : List SaveOp → SessState × List WriteEv
  | [] => (s, [])
  | op :: ops =>
    let (s1, evs) := sessStep s op
    let (s2, tr) := sessRun s1 ops
    (s2, evs ++ tr)

/-- Every write in the trace is a failed creation attempt. -/
def allFailedCreates (tr : List WriteEv) : Prop :=
  ∀ e ∈ tr, e.isFailedCreate = true

/-- Every write in the trace is an update against the given identifier. -/
def allUpdatesTo (i : Nat) (tr : List WriteEv) : Prop :=
  ∀ e ∈ tr, e.isUpdateTo i = true

/-- Invariant tying a session state to the trace of backend writes emitted
so far: before the first successful persistence every write is a failed
creation attempt; afterwards the trace splits as failed attempts, then the
one successful creation of identifier `i`, then only updates against `i`,
and `savedPokemonId` holds `i` for as long as the session continues. -/
def sessInv (s : SessState) (tr : List WriteEv) : Prop :=
  if s.ended = true ∨ s.savedPokemonId.isSome then
    ∃ i pre post, tr = pre ++ WriteEv.createEv i true :: post ∧
      allFailedCreates pre ∧ allUpdatesTo i post ∧
      (s.ended = false → s.savedPokemonId = some i)
  else allFailedCreates tr

/-!
Theorems.  Each claim of the specification is settled below; shared helper
lemmas come first within each group.
-/

/-- C4: an auto-save invocation whose name field is empty or
whitespace-only issues no database create or update (the database is
returned unchanged) and ends with the auto-save status saved, not error
(CreatePokemon.tsx lines 354-358). -/
theorem autosave_empty_name_skips (f : SaveFaults) (s : ClientState)
    (form : PokemonData) (db : DB)
    (h : form.name = "" ∨ strTrim form.name = "") :
    (autoSaveRun f s form db).2 = db ∧
    (autoSaveRun f s form db).1.autoSaveStatus = AutoStatus.saved := by
  have hc : (form.name = "" || strTrim form.name = "") = true := by
    rcases h with h | h <;> simp [h]
  simp [autoSaveRun, hc]

/-- Witness for `autosave_empty_name_skips` at a whitespace-only name. -/
theorem autosave_empty_name_skips_witness :
    ((" " : String) = "" ∨ strTrim " " = "") ∧
    ((autoSaveRun {} {} { name := " ", typePrimary := "Normal" } {}).2 = ({} : DB) ∧
     (autoSaveRun {} {} { name := " ", typePrimary := "Normal" } {}).1.autoSaveStatus
       = AutoStatus.saved) :=
  ⟨Or.inr (by decide),
   autosave_empty_name_skips {} {} { name := " ", typePrimary := "Normal" } {}
     (Or.inr (by decide))⟩

/-- C5: setting the male gender ratio to any value `v` in [0, 100] makes
the sync effect recompute the female ratio as exactly `100 - v`, after
which male plus female equals 100 (CreatePokemon.tsx lines 149-158). -/
theorem gender_ratio_complement (form : PokemonData) (v : Int)
    (h0 : 0 ≤ v) (h1 : v ≤ 100) :
    (syncGenderRatioFemale { form with genderRatioMale := some v }).genderRatioFemale
      = some (100 - v) ∧
    watchedGenderRatioMale (syncGenderRatioFemale { form with genderRatioMale := some v })
      + ((syncGenderRatioFemale { form with genderRatioMale := some v }).genderRatioFemale.getD 0)
      = 100 := by
  have hif : (if v = 0 then (0 : Int) else v) = v := by split <;> omega
  constructor
  · simp [syncGenderRatioFemale, watchedGenderRatioMale, hif]
  · simp [syncGenderRatioFemale, watchedGenderRatioMale, hif]

/-- Witness for `gender_ratio_complement` at v = 30. -/
theorem gender_ratio_complement_witness :
    ((0 : Int) ≤ 30 ∧ (30 : Int) ≤ 100) ∧
    ((syncGenderRatioFemale
        { ({ name := "Pika", typePrimary := "Electric" } : PokemonData) with
          genderRatioMale := some 30 }).genderRatioFemale = some (100 - 30) ∧
     watchedGenderRatioMale (syncGenderRatioFemale
        { ({ name := "Pika", typePrimary := "Electric" } : PokemonData) with
          genderRatioMale := some 30 })
       + ((syncGenderRatioFemale
            { ({ name := "Pika", typePrimary := "Electric" } : PokemonData) with
              genderRatioMale := some 30 }).genderRatioFemale.getD 0) = 100) :=
  ⟨⟨by decide, by decide⟩,
   gender_ratio_complement { name := "Pika", typePrimary := "Electric" } 30
     (by decide) (by decide)⟩

/-- Helper: a truthiness-guarded string column is unchanged when the
supplied value is falsy (absent or the empty string). -/
theorem updStr_falsy {v old : Option String} (h : v = none ∨ v = some "") :
    updStr v old = old := by
  rcases h with h | h <;> simp [h, updStr]

/-- Helper: the non-nullable variant of `updStr_falsy`. -/
theorem updStrReq_falsy {v : Option String} {old : String}
    (h : v = none ∨ v = some "") : updStrReq v old = old := by
  rcases h with h | h <;> simp [h, updStrReq]

/-- Helper: an ability-name column is unchanged when the ability slot is
absent or its name is empty. -/
theorem updAbilityName_falsy {a : Option Ability} {old : Option String}
    (h : a = none ∨ ∃ ab, a = some ab ∧ ab.name = "") :
    updAbilityName a old = old := by
  rcases h with h | ⟨ab, ha, hn⟩ <;> simp [updAbilityName, *]

/-- Helper: an ability-description column is unchanged when the ability
slot is absent or its description is empty. -/
theorem updAbilityDesc_falsy {a : Option Ability} {old : Option String}
    (h : a = none ∨ ∃ ab, a = some ab ∧ ab.description = "") :
    updAbilityDesc a old = old := by
  rcases h with h | ⟨ab, ha, hn⟩ <;> simp [updAbilityDesc, *]

/-- C10: in the update object of `updatePokemon` (supabase.ts lines
282-346), every truthiness-guarded field whose supplied value is falsy
(absent, or the empty string; for move lists and ability slots, absent) is
omitted and the stored value is unchanged, so these fields can never be
cleared; whereas every field guarded by a definedness check is written
whenever present, including the values 0, false and the empty string. -/
theorem updatePokemon_field_guards :
    (∀ (p : PokemonPatch) (r : Row), (p.name = none ∨ p.name = some "") →
        (applyPatch p r).name = r.name)
  ∧ (∀ (p : PokemonPatch) (r : Row), (p.category = none ∨ p.category = some "") →
        (applyPatch p r).category = r.category)
  ∧ (∀ (p : PokemonPatch) (r : Row), (p.typePrimary = none ∨ p.typePrimary = some "") →
        (applyPatch p r).typePrimary = r.typePrimary)
  ∧ (∀ (p : PokemonPatch) (r : Row), (p.heightUnit = none ∨ p.heightUnit = some "") →
        (applyPatch p r).heightUnit = r.heightUnit)
  ∧ (∀ (p : PokemonPatch) (r : Row), (p.weightUnit = none ∨ p.weightUnit = some "") →
        (applyPatch p r).weightUnit = r.weightUnit)
  ∧ (∀ (p : PokemonPatch) (r : Row), (p.shape = none ∨ p.shape = some "") →
        (applyPatch p r).shape = r.shape)
  ∧ (∀ (p : PokemonPatch) (r : Row), (p.pokedexEntry = none ∨ p.pokedexEntry = some "") →
        (applyPatch p r).pokedexEntry = r.pokedexEntry)
  ∧ (∀ (p : PokemonPatch) (r : Row),
        (p.ability1 = none ∨ ∃ ab, p.ability1 = some ab ∧ ab.name = "") →
        (applyPatch p r).ability1Name = r.ability1Name)
  ∧ (∀ (p : PokemonPatch) (r : Row),
        (p.ability1 = none ∨ ∃ ab, p.ability1 = some ab ∧ ab.description = "") →
        (applyPatch p r).ability1Description = r.ability1Description)
  ∧ (∀ (p : PokemonPatch) (r : Row),
        (p.ability2 = none ∨ ∃ ab, p.ability2 = some ab ∧ ab.name = "") →
        (applyPatch p r).ability2Name = r.ability2Name)
  ∧ (∀ (p : PokemonPatch) (r : Row),
        (p.ability2 = none ∨ ∃ ab, p.ability2 = some ab ∧ ab.description = "") →
        (applyPatch p r).ability2Description = r.ability2Description)
  ∧ (∀ (p : PokemonPatch) (r : Row),
        (p.hiddenAbility = none ∨ ∃ ab, p.hiddenAbility = some ab ∧ ab.name = "") →
        (applyPatch p r).hiddenAbilityName = r.hiddenAbilityName)
  ∧ (∀ (p : PokemonPatch) (r : Row),
        (p.hiddenAbility = none ∨ ∃ ab, p.hiddenAbility = some ab ∧ ab.description = "") →
        (applyPatch p r).hiddenAbilityDescription = r.hiddenAbilityDescription)
  ∧ (∀ (p : PokemonPatch) (r : Row), (p.evolutionStage = none ∨ p.evolutionStage = some "") →
        (applyPatch p r).evolutionStage = r.evolutionStage)
  ∧ (∀ (p : PokemonPatch) (r : Row), (p.evolvesFrom = none ∨ p.evolvesFrom = some "") →
        (applyPatch p r).evolvesFrom = r.evolvesFrom)
  ∧ (∀ (p : PokemonPatch) (r : Row), (p.evolvesInto = none ∨ p.evolvesInto = some "") →
        (applyPatch p r).evolvesInto = r.evolvesInto)
  ∧ (∀ (p : PokemonPatch) (r : Row), (p.evolutionMethod = none ∨ p.evolutionMethod = some "") →
        (applyPatch p r).evolutionMethod = r.evolutionMethod)
  ∧ (∀ (p : PokemonPatch) (r : Row), (p.eggGroup1 = none ∨ p.eggGroup1 = some "") →
        (applyPatch p r).eggGroup1 = r.eggGroup1)
  ∧ (∀ (p : PokemonPatch) (r : Row), (p.eggGroup2 = none ∨ p.eggGroup2 = some "") →
        (applyPatch p r).eggGroup2 = r.eggGroup2)
  ∧ (∀ (p : PokemonPatch) (r : Row), (p.growthRate = none ∨ p.growthRate = some "") →
        (applyPatch p r).growthRate = r.growthRate)
  ∧ (∀ (p : PokemonPatch) (r : Row), (p.evYield = none ∨ p.evYield = some "") →
        (applyPatch p r).evYield = r.evYield)
  ∧ (∀ (p : PokemonPatch) (r : Row),
        (p.originalDrawingUrl = none ∨ p.originalDrawingUrl = some "") →
        (applyPatch p r).originalDrawingUrl = r.originalDrawingUrl)
  ∧ (∀ (p : PokemonPatch) (r : Row),
        (p.aiGeneratedImageUrl = none ∨ p.aiGeneratedImageUrl = some "") →
        (applyPatch p r).aiGeneratedImageUrl = r.aiGeneratedImageUrl)
  ∧ (∀ (p : PokemonPatch) (r : Row), p.levelUpMoves = none →
        (applyPatch p r).levelUpMoves = r.levelUpMoves)
  ∧ (∀ (p : PokemonPatch) (r : Row), p.tmMoves = none →
        (applyPatch p r).tmMoves = r.tmMoves)
  ∧ (∀ (p : PokemonPatch) (r : Row), p.eggMoves = none →
        (applyPatch p r).eggMoves = r.eggMoves)
  ∧ (∀ (p : PokemonPatch) (r : Row) (x : Int), p.pokedexNumber = some x →
        (applyPatch p r).pokedexNumber = some x)
  ∧ (∀ (p : PokemonPatch) (r : Row), p.typeSecondary = some "" →
        (applyPatch p r).typeSecondary = some "")
  ∧ (∀ (p : PokemonPatch) (r : Row) (x : Int), p.heightValue = some x →
        (applyPatch p r).heightValue = some x)
  ∧ (∀ (p : PokemonPatch) (r : Row) (x : Int), p.weightValue = some x →
        (applyPatch p r).weightValue = some x)
  ∧ (∀ (p : PokemonPatch) (r : Row) (x : Int), p.hp = some x →
        (applyPatch p r).hp = some x)
  ∧ (∀ (p : PokemonPatch) (r : Row) (x : Int), p.attack = some x →
        (applyPatch p r).attack = some x)
  ∧ (∀ (p : PokemonPatch) (r : Row) (x : Int), p.defense = some x →
        (applyPatch p r).defense = some x)
  ∧ (∀ (p : PokemonPatch) (r : Row) (x : Int), p.specialAttack = some x →
        (applyPatch p r).specialAttack = some x)
  ∧ (∀ (p : PokemonPatch) (r : Row) (x : Int), p.specialDefense = some x →
        (applyPatch p r).specialDefense = some x)
  ∧ (∀ (p : PokemonPatch) (r : Row) (x : Int), p.speed = some x →
        (applyPatch p r).speed = some x)
  ∧ (∀ (p : PokemonPatch) (r : Row) (x : Int), p.genderRatioMale = some x →
        (applyPatch p r).genderRatioMale = some x)
  ∧ (∀ (p : PokemonPatch) (r : Row) (x : Int), p.genderRatioFemale = some x →
        (applyPatch p r).genderRatioFemale = some x)
  ∧ (∀ (p : PokemonPatch) (r : Row), p.isGenderless = some false →
        (applyPatch p r).isGenderless = some false)
  ∧ (∀ (p : PokemonPatch) (r : Row) (x : Int), p.eggCycles = some x →
        (applyPatch p r).eggCycles = some x)
  ∧ (∀ (p : PokemonPatch) (r : Row) (x : Int), p.catchRate = some x →
        (applyPatch p r).catchRate = some x)
  ∧ (∀ (p : PokemonPatch) (r : Row) (x : Int), p.baseFriendship = some x →
        (applyPatch p r).baseFriendship = some x)
  ∧ (∀ (p : PokemonPatch) (r : Row), p.physicalAppearance = some "" →
        (applyPatch p r).physicalAppearance = some "")
  ∧ (∀ (p : PokemonPatch) (r : Row), p.imageDescription = some "" →
        (applyPatch p r).imageDescription = some "") :=
  ⟨fun p r h => by simp [applyPatch, updStrReq_falsy h],
   fun p r h => by simp [applyPatch, updStr_falsy h],
   fun p r h => by simp [applyPatch, updStrReq_falsy h],
   fun p r h => by simp [applyPatch, updStr_falsy h],
   fun p r h => by simp [applyPatch, updStr_falsy h],
   fun p r h => by simp [applyPatch, updStr_falsy h],
   fun p r h => by simp [applyPatch, updStr_falsy h],
   fun p r h => by simp [applyPatch, updAbilityName_falsy h],
   fun p r h => by simp [applyPatch, updAbilityDesc_falsy h],
   fun p r h => by simp [applyPatch, updAbilityName_falsy h],
   fun p r h => by simp [applyPatch, updAbilityDesc_falsy h],
   fun p r h => by simp [applyPatch, updAbilityName_falsy h],
   fun p r h => by simp [applyPatch, updAbilityDesc_falsy h],
   fun p r h => by simp [applyPatch, updStr_falsy h],
   fun p r h => by simp [applyPatch, updStr_falsy h],
   fun p r h => by simp [applyPatch, updStr_falsy h],
   fun p r h => by simp [applyPatch, updStr_falsy h],
   fun p r h => by simp [applyPatch, updStr_falsy h],
   fun p r h => by simp [applyPatch, updStr_falsy h],
   fun p r h => by simp [applyPatch, updStr_falsy h],
   fun p r h => by simp [applyPatch, updStr_falsy h],
   fun p r h => by simp [applyPatch, updStr_falsy h],
   fun p r h => by simp [applyPatch, updStr_falsy h],
   fun p r h => by simp [applyPatch, h, updList],
   fun p r h => by simp [applyPatch, h, updList],
   fun p r h => by simp [applyPatch, h, updList],
   fun p r x h => by simp [applyPatch, h, updDef],
   fun p r h => by simp [applyPatch, h, updDef],
   fun p r x h => by simp [applyPatch, h, updDef],
   fun p r x h => by simp [applyPatch, h, updDef],
   fun p r x h => by simp [applyPatch, h, updDef],
   fun p r x h => by simp [applyPatch, h, updDef],
   fun p r x h => by simp [applyPatch, h, updDef],
   fun p r x h => by simp [applyPatch, h, updDef],
   fun p r x h => by simp [applyPatch, h, updDef],
   fun p r x h => by simp [applyPatch, h, updDef],
   fun p r x h => by simp [applyPatch, h, updDef],
   fun p r x h => by simp [applyPatch, h, updDef],
   fun p r h => by simp [applyPatch, h, updDef],
   fun p r x h => by simp [applyPatch, h, updDef],
   fun p r x h => by simp [applyPatch, h, updDef],
   fun p r x h => by simp [applyPatch, h, updDef],
   fun p r h => by simp [applyPatch, h, updDef],
   fun p r h => by simp [applyPatch, h, updDef]⟩

/-- Witness for `updatePokemon_field_guards`: representative clauses
instantiated at concrete patches and a concrete row. -/
theorem updatePokemon_field_guards_witness :
    ((applyPatch { name := some "" } (rowOfData 0 { name := "A", typePrimary := "Fire" })).name
       = (rowOfData 0 { name := "A", typePrimary := "Fire" }).name)
  ∧ ((applyPatch { category := some "" } (rowOfData 0 { name := "A", typePrimary := "Fire" })).category
       = (rowOfData 0 { name := "A", typePrimary := "Fire" }).category)
  ∧ ((applyPatch { ability1 := some { name := "", description := "d" } }
        (rowOfData 0 { name := "A", typePrimary := "Fire" })).ability1Name
       = (rowOfData 0 { name := "A", typePrimary := "Fire" }).ability1Name)
  ∧ ((applyPatch { levelUpMoves := none }
        (rowOfData 0 { name := "A", typePrimary := "Fire" })).levelUpMoves
       = (rowOfData 0 { name := "A", typePrimary := "Fire" }).levelUpMoves)
  ∧ ((applyPatch { hp := some 0 } (rowOfData 0 { name := "A", typePrimary := "Fire" })).hp
       = some 0)
  ∧ ((applyPatch { isGenderless := some false }
        (rowOfData 0 { name := "A", typePrimary := "Fire" })).isGenderless = some false)
  ∧ ((applyPatch { physicalAppearance := some "" }
        (rowOfData 0 { name := "A", typePrimary := "Fire" })).physicalAppearance = some "") :=
  ⟨updatePokemon_field_guards.1 { name := some "" } _ (Or.inr rfl),
   updatePokemon_field_guards.2.1 { category := some "" } _ (Or.inr rfl),
   updatePokemon_field_guards.2.2.2.2.2.2.2.1
     { ability1 := some { name := "", description := "d" } } _
     (Or.inr ⟨{ name := "", description := "d" }, rfl, rfl⟩),
   (updatePokemon_field_guards.2.2.2.2.2.2.2.2.2.2.2.2.2.2.2.2.2.2.2.2.2.2.2.1)
     { levelUpMoves := none } _ rfl,
   (updatePokemon_field_guards.2.2.2.2.2.2.2.2.2.2.2.2.2.2.2.2.2.2.2.2.2.2.2.2.2.2.2.2.2.2.1)
     { hp := some 0 } _ 0 rfl,
   (updatePokemon_field_guards.2.2.2.2.2.2.2.2.2.2.2.2.2.2.2.2.2.2.2.2.2.2.2.2.2.2.2.2.2.2.2.2.2.2.2.2.2.2.1)
     { isGenderless := some false } _ rfl,
   (updatePokemon_field_guards.2.2.2.2.2.2.2.2.2.2.2.2.2.2.2.2.2.2.2.2.2.2.2.2.2.2.2.2.2.2.2.2.2.2.2.2.2.2.2.2.2.2.1)
     { physicalAppearance := some "" } _ rfl⟩

/-- C9: `getPokemonByName` never throws.  A backend failure of the lookup
with any error code other than PGRST116 (the no-unique-row code) is caught
and returned as `none`, exactly like an absent record, so a caller cannot
distinguish the two; consequently `findOrCreatePokemonByName` creates a
brand-new record named after the (trimmed) argument whenever the lookup
fails for any reason, even when a matching record exists. -/
theorem getPokemonByName_never_throws :
    (∀ (e : DbErr) (name : String) (db : DB), e.code ≠ "PGRST116" →
        getPokemonByName (some e) name db = none)
  ∧ (∀ (name : String) (db : DB), matchesByNameCI name db = [] →
        getPokemonByName none name db = none)
  ∧ (∀ (e : DbErr) (name : String) (uid : Option String) (db : DB),
        e.code ≠ "PGRST116" → name ≠ "" → strTrim name ≠ "" →
        findOrCreatePokemonByName (some e) none name uid db =
          ({ rows := db.rows ++
              [rowOfData db.nextId { name := strTrim name, typePrimary := "Normal", userId := uid }],
             nextId := db.nextId + 1 },
           some (rowOfData db.nextId
              { name := strTrim name, typePrimary := "Normal", userId := uid }))) := by
  refine ⟨?_, ?_, ?_⟩
  · intro e name db h
    simp [getPokemonByName, getPokemonByNameTry, h]
  · intro name db h
    simp [getPokemonByName, getPokemonByNameTry, h]
  · intro e name uid db he hn hns
    simp [findOrCreatePokemonByName, hn, hns, getPokemonByName, getPokemonByNameTry,
      he, createPokemon]

/-- Witness for `getPokemonByName_never_throws`: a transient backend error
(code 500) on a database that does contain a record named Eevee still
reads as absent, and `findOrCreatePokemonByName` then creates a second
record named Eevee. -/
theorem getPokemonByName_never_throws_witness :
    (({ code := "500", message := "boom" } : DbErr).code ≠ "PGRST116" ∧
     getPokemonByName (some { code := "500", message := "boom" }) "Eevee"
       { rows := [rowOfData 0 { name := "Eevee", typePrimary := "Normal" }], nextId := 1 }
       = none) ∧
    (("Eevee" : String) ≠ "" ∧ strTrim "Eevee" ≠ "" ∧
     findOrCreatePokemonByName (some { code := "500", message := "boom" }) none "Eevee" none
       { rows := [rowOfData 0 { name := "Eevee", typePrimary := "Normal" }], nextId := 1 } =
       ({ rows := [rowOfData 0 { name := "Eevee", typePrimary := "Normal" },
                   rowOfData 1 { name := strTrim "Eevee", typePrimary := "Normal", userId := none }],
          nextId := 2 },
        some (rowOfData 1 { name := strTrim "Eevee", typePrimary := "Normal", userId := none }))) :=
  ⟨⟨by decide,
    getPokemonByName_never_throws.1 { code := "500", message := "boom" } "Eevee"
      { rows := [rowOfData 0 { name := "Eevee", typePrimary := "Normal" }], nextId := 1 }
      (by decide)⟩,
   ⟨by decide, by decide,
    getPokemonByName_never_throws.2.2 { code := "500", message := "boom" } "Eevee" none
      { rows := [rowOfData 0 { name := "Eevee", typePrimary := "Normal" }], nextId := 1 }
      (by decide) (by decide) (by decide)⟩⟩

/-- C6: a save with no generated-artwork reference is never blocked by its
absence.  The prepared payload carries `none` for the artwork field when
`aiGeneratedImage` is empty (`aiGeneratedImage || undefined`); creating a
record from such a payload succeeds and stores `none`; an update whose
payload lacks the artwork leaves the stored field unchanged (so a record
that never had artwork keeps the field null); and the full-payload patch
passes the artwork field through unchanged. -/
theorem save_without_artwork_succeeds :
    (∀ (s : ClientState) (form : PokemonData), s.aiGeneratedImage = "" →
        (preparePokemonData s form).aiGeneratedImageUrl = none)
  ∧ (∀ (pd : PokemonData) (db : DB), pd.aiGeneratedImageUrl = none →
        ∃ db1 row, createPokemon none pd db = Except.ok (db1, row) ∧
          row.aiGeneratedImageUrl = none)
  ∧ (∀ (p : PokemonPatch) (r : Row), p.aiGeneratedImageUrl = none →
        (applyPatch p r).aiGeneratedImageUrl = r.aiGeneratedImageUrl)
  ∧ (∀ (pd : PokemonData),
        (patchOfData pd).aiGeneratedImageUrl = pd.aiGeneratedImageUrl) := by
  refine ⟨?_, ?_, ?_, fun pd => rfl⟩
  · intro s form h
    simp [preparePokemonData, h]
  · intro pd db h
    exact ⟨_, _, rfl, by simp [rowOfData, h]⟩
  · intro p r h
    simp [applyPatch, h, updStr]

/-- Witness for `save_without_artwork_succeeds`: the end-to-end scenario of
the specification (Emberling, Fire, no artwork) at a fresh client state. -/
theorem save_without_artwork_succeeds_witness :
    (({} : ClientState).aiGeneratedImage = "" ∧
     (preparePokemonData {} { name := "Emberling", typePrimary := "Fire" }).aiGeneratedImageUrl
       = none) ∧
    ((preparePokemonData {} { name := "Emberling", typePrimary := "Fire" }).aiGeneratedImageUrl
       = none ∧
     ∃ db1 row,
       createPokemon none (preparePokemonData {} { name := "Emberling", typePrimary := "Fire" }) {}
         = Except.ok (db1, row) ∧ row.aiGeneratedImageUrl = none) :=
  ⟨⟨rfl, save_without_artwork_succeeds.1 {} { name := "Emberling", typePrimary := "Fire" } rfl⟩,
   ⟨save_without_artwork_succeeds.1 {} { name := "Emberling", typePrimary := "Fire" } rfl,
    save_without_artwork_succeeds.2.1
      (preparePokemonData {} { name := "Emberling", typePrimary := "Fire" }) {}
      (save_without_artwork_succeeds.1 {} { name := "Emberling", typePrimary := "Fire" } rfl)⟩⟩

/-- C7 counterexample: the creation flow attaches no owner.  A fresh
creation session (no auth context is wired into CreatePokemon.tsx, so the
form data carries no user identifier) submitted with a valid name and type
produces exactly one record, whose stored owner is `none` rather than the
identifier of any acting user. -/
theorem creation_flow_no_owner_cex :
    ((onSubmit {} {} { name := "Emberling", typePrimary := "Fire" } {}).db.rows.map Row.userId)
      = [none] ∧ (none : Option String) ≠ some "aza" :=
  ⟨rfl, by decide⟩

/-- C7 amended: `createPokemon` stores the supplied owner or null, and the
creation flow supplies none, so records created through it carry no owner;
`updatePokemon` and `deletePokemon`, when invoked with a user identifier,
throw their permission error — producing no updated database, so the
record is unchanged — whenever the stored owner is set and differs. -/
theorem ownership_checks_amended :
    (∀ (pd : PokemonData) (db : DB), pd.userId = none →
        ∃ db1 row, createPokemon none pd db = Except.ok (db1, row) ∧ row.userId = none)
  ∧ (∀ (s : ClientState) (form : PokemonData),
        (preparePokemonData s form).userId = form.userId)
  ∧ (∀ (gf uf : Option DbErr) (id : Nat) (p : PokemonPatch) (u owner : String)
        (db : DB) (r : Row), getPokemonById gf id db = Except.ok r →
        r.userId = some owner → owner ≠ u →
        updatePokemon gf uf id p (some u) db = Except.error permissionEditMsg)
  ∧ (∀ (gf df : Option DbErr) (id : Nat) (u owner : String) (db : DB) (r : Row),
        getPokemonById gf id db = Except.ok r → r.userId = some owner → owner ≠ u →
        deletePokemon gf df id (some u) db = Except.error permissionDeleteMsg) := by
  refine ⟨?_, fun s form => rfl, ?_, ?_⟩
  · intro pd db h
    exact ⟨_, _, rfl, by simp [rowOfData, h]⟩
  · intro gf uf id p u owner db r h1 h2 h3
    simp [updatePokemon, verifyOwnership, h1, h2, h3]
  · intro gf df id u owner db r h1 h2 h3
    simp [deletePokemon, verifyOwnership, h1, h2, h3]

/-- Witness for `ownership_checks_amended`: a record owned by aza is
protected from editing and deletion by another user, and an ownerless
payload creates an ownerless record. -/
theorem ownership_checks_amended_witness :
    (∃ db1 row, createPokemon none { name := "A", typePrimary := "Fire" } {}
        = Except.ok (db1, row) ∧ row.userId = none) ∧
    (updatePokemon none none 0 { name := some "B" } (some "mallory")
        { rows := [rowOfData 0 { name := "A", typePrimary := "Fire", userId := some "aza" }],
          nextId := 1 }
      = Except.error permissionEditMsg) ∧
    (deletePokemon none none 0 (some "mallory")
        { rows := [rowOfData 0 { name := "A", typePrimary := "Fire", userId := some "aza" }],
          nextId := 1 }
      = Except.error permissionDeleteMsg) :=
  ⟨ownership_checks_amended.1 { name := "A", typePrimary := "Fire" } {} rfl,
   ownership_checks_amended.2.2.1 none none 0 { name := some "B" } "mallory" "aza"
     { rows := [rowOfData 0 { name := "A", typePrimary := "Fire", userId := some "aza" }],
       nextId := 1 }
     (rowOfData 0 { name := "A", typePrimary := "Fire", userId := some "aza" })
     rfl rfl (by decide),
   ownership_checks_amended.2.2.2 none none 0 "mallory" "aza"
     { rows := [rowOfData 0 { name := "A", typePrimary := "Fire", userId := some "aza" }],
       nextId := 1 }
     (rowOfData 0 { name := "A", typePrimary := "Fire", userId := some "aza" })
     rfl rfl (by decide)⟩

/-- C8 counterexample: a failed background auto-save does leave a
user-visible trace.  On a concrete failing auto-save the status becomes
error, and the always-rendered status indicator then displays the failure
message, which differs from every non-error text — so the claim that no
user-visible indication of the failure is shown is false. -/
theorem autosave_error_indicator_cex :
    (autoSaveRun { primary := some { code := "500", message := "boom" } } {}
        { name := "A", typePrimary := "Normal" } {}).1.autoSaveStatus = AutoStatus.error ∧
    autoSaveIndicatorText AutoStatus.error false "12:00"
      = "Auto-save failed - use Save Draft button" ∧
    autoSaveIndicatorText AutoStatus.error false "12:00"
      ≠ autoSaveIndicatorText AutoStatus.saved false "12:00" ∧
    autoSaveIndicatorText AutoStatus.error false "12:00"
      ≠ autoSaveIndicatorText AutoStatus.saved true "12:00" :=
  ⟨rfl, rfl, by decide, by decide⟩

/-- C8 amended: a failed background auto-save is swallowed rather than
surfaced as an error banner or exception — the database is unchanged, the
`saveError` banner and all other save state are untouched — but the
auto-save status indicator switches to its error state (rendered as the
text Auto-save failed - use Save Draft button). -/
theorem autosave_failure_logged_only_amended (f : SaveFaults) (s : ClientState)
    (form : PokemonData) (db : DB) (e : DbErr)
    (hf : f.primary = some e)
    (hn : form.name ≠ "") (hns : strTrim form.name ≠ "") :
    (autoSaveRun f s form db).1.saveError = s.saveError ∧
    (autoSaveRun f s form db).1.autoSaveStatus = AutoStatus.error ∧
    (autoSaveRun f s form db).2 = db ∧
    (autoSaveRun f s form db).1.savedPokemonId = s.savedPokemonId ∧
    (autoSaveRun f s form db).1.lastAutoSave = s.lastAutoSave := by
  have hc : (form.name = "" || strTrim form.name = "") = false := by
    simp [hn, hns]
  cases hsid : s.savedPokemonId with
  | none =>
    simp [autoSaveRun, hc, hsid, hf, createPokemon]
  | some sid =>
    simp [autoSaveRun, hc, hsid, hf, updatePokemon, verifyOwnership]

/-- Witness for `autosave_failure_logged_only_amended` on a concrete
failing auto-save. -/
theorem autosave_failure_logged_only_amended_witness :
    (({ primary := some { code := "500", message := "boom" } } : SaveFaults).primary
        = some { code := "500", message := "boom" } ∧
     ("A" : String) ≠ "" ∧ strTrim "A" ≠ "") ∧
    ((autoSaveRun { primary := some { code := "500", message := "boom" } } {}
        { name := "A", typePrimary := "Normal" } {}).1.saveError = ({} : ClientState).saveError ∧
     (autoSaveRun { primary := some { code := "500", message := "boom" } } {}
        { name := "A", typePrimary := "Normal" } {}).1.autoSaveStatus = AutoStatus.error ∧
     (autoSaveRun { primary := some { code := "500", message := "boom" } } {}
        { name := "A", typePrimary := "Normal" } {}).2 = ({} : DB) ∧
     (autoSaveRun { primary := some { code := "500", message := "boom" } } {}
        { name := "A", typePrimary := "Normal" } {}).1.savedPokemonId
       = ({} : ClientState).savedPokemonId ∧
     (autoSaveRun { primary := some { code := "500", message := "boom" } } {}
        { name := "A", typePrimary := "Normal" } {}).1.lastAutoSave
       = ({} : ClientState).lastAutoSave) :=
  ⟨⟨rfl, by decide, by decide⟩,
   autosave_failure_logged_only_amended
     { primary := some { code := "500", message := "boom" } } {}
     { name := "A", typePrimary := "Normal" } {} { code := "500", message := "boom" }
     rfl (by decide) (by decide)⟩

/-- Helper: the field merge never changes the row identifier. -/
theorem applyPatch_id (p : PokemonPatch) (r : Row) : (applyPatch p r).id = r.id := rfl

/-- Helper: no row with an identifier below the id supply matches a freshly
assigned identifier. -/
theorem filter_id_nil (l : List Row) (n : Nat) (h : ∀ r ∈ l, r.id < n) :
    l.filter (fun r => r.id == n) = [] := by
  induction l with
  | nil => rfl
  | cons a t ih =>
    have ha : a.id < n := h a (by simp)
    have hane : (a.id == n) = false := by
      simp only [beq_eq_false_iff_ne, ne_eq]
      omega
    rw [List.filter_cons, hane]
    simpa using ih fun r hr => h r (by simp [hr])

/-- Helper: a successful insert appends the new row built from the payload. -/
theorem createPokemon_ok {cf : Option DbErr} {pd : PokemonData} {db db1 : DB}
    {row : Row} (h : createPokemon cf pd db = Except.ok (db1, row)) :
    db1.rows = db.rows ++ [row] ∧ row = rowOfData db.nextId pd ∧
      db1.nextId = db.nextId + 1 := by
  cases cf with
  | some e => exact absurd h (by simp [createPokemon])
  | none =>
    simp only [createPokemon, Except.ok.injEq, Prod.mk.injEq] at h
    obtain ⟨hdb, hrow⟩ := h
    refine ⟨?_, hrow.symm, ?_⟩
    · rw [← hdb, ← hrow]
    · rw [← hdb]

/-- Helper: a successful update maps the guarded field merge over the rows. -/
theorem updatePokemon_ok_rows {gf uf : Option DbErr} {id : Nat}
    {p : PokemonPatch} {u : Option String} {db db1 : DB} {r' : Row}
    (h : updatePokemon gf uf id p u db = Except.ok (db1, r')) :
    db1.rows = db.rows.map (fun q => if q.id == id then applyPatch p q else q) := by
  unfold updatePokemon at h
  split at h
  · exact absurd h (by simp)
  · split at h
    · exact absurd h (by simp)
    · split at h
      · simp only [Except.ok.injEq, Prod.mk.injEq] at h
        rw [← h.1]
      · exact absurd h (by simp)

/-- Helper: a row satisfying a property preserved by the field merge
survives a successful update. -/
theorem exists_row_update {P : Row → Prop} {gf uf : Option DbErr} {id : Nat}
    {p : PokemonPatch} {u : Option String} {db db1 : DB} {r' : Row}
    (h : updatePokemon gf uf id p u db = Except.ok (db1, r'))
    (hP : ∃ r ∈ db.rows, P r) (hpres : ∀ q, P q → P (applyPatch p q)) :
    ∃ r ∈ db1.rows, P r := by
  obtain ⟨r, hr, hPr⟩ := hP
  rw [updatePokemon_ok_rows h]
  refine ⟨if r.id == id then applyPatch p r else r,
    List.mem_map_of_mem _ hr, ?_⟩
  split
  · exact hpres r hPr
  · exact hPr

/-- Helper: a successful update targets a row that exists, and that row
(updated in place, identifier unchanged) still exists afterwards. -/
theorem updatePokemon_ok_exists_id {gf uf : Option DbErr} {id : Nat}
    {p : PokemonPatch} {u : Option String} {db db1 : DB} {r' : Row}
    (h : updatePokemon gf uf id p u db = Except.ok (db1, r')) :
    ∃ r ∈ db1.rows, r.id = id := by
  have hP : ∃ r ∈ db.rows, r.id = id := by
    unfold updatePokemon at h
    split at h
    · exact absurd h (by simp)
    · split at h
      · exact absurd h (by simp)
      · split at h
        · next r heq =>
          have hr : r ∈ db.rows.filter (fun q => q.id == id) := by
            rw [heq]; exact List.mem_singleton_self r
          exact ⟨r, List.mem_of_mem_filter hr, by simpa using List.of_mem_filter hr⟩
        · exact absurd h (by simp)
  exact exists_row_update h hP fun q hq => by rw [applyPatch_id]; exact hq

/-- Helper: `findOrCreatePokemonByName` only ever appends to the table
(and under any injected fault it may leave it unchanged). -/
theorem findOrCreate_rows (lf cf : Option DbErr) (nm : String)
    (uid : Option String) (db : DB) :
    (findOrCreatePokemonByName lf cf nm uid db).1.rows = db.rows ∨
    ∃ row, (findOrCreatePokemonByName lf cf nm uid db).1.rows = db.rows ++ [row] := by
  unfold findOrCreatePokemonByName
  split
  · exact Or.inl rfl
  · split
    · exact Or.inl rfl
    · split
      · next db1 row heq => exact Or.inr ⟨row, (createPokemon_ok heq).1⟩
      · exact Or.inl rfl

/-- Helper: a row satisfying a property preserved by the evolves-into
backlink merge survives the second linking block, whatever its faults and
whatever branch it takes. -/
theorem exists_row_fromStep (f : LinkFaults) (pd : PokemonData) (db : DB)
    {P : Row → Prop} (hP : ∃ r ∈ db.rows, P r)
    (hpres : ∀ q, P q → P (applyPatch (evolvesIntoPatch pd) q)) :
    ∃ r ∈ (dbOfExcept (linkEvolvesFromStep f pd db)).rows, P r := by
  unfold linkEvolvesFromStep
  split
  · split
    · next dbA prior heq =>
      have hext := findOrCreate_rows f.lookupFrom f.createFrom
        (pd.evolvesFrom.getD "") none db
      rw [heq] at hext
      simp only at hext
      have hA : ∃ r ∈ dbA.rows, P r := by
        obtain ⟨r, hr, hPr⟩ := hP
        rcases hext with hex | ⟨row, hex⟩
        · exact ⟨r, hex ▸ hr, hPr⟩
        · exact ⟨r, by rw [hex]; exact List.mem_append_left _ hr, hPr⟩
      split
      · next dbB rB heq2 => simpa [dbOfExcept] using exists_row_update heq2 hA hpres
      · simpa [dbOfExcept] using hA
    · next dbA heq =>
      have hext := findOrCreate_rows f.lookupFrom f.createFrom
        (pd.evolvesFrom.getD "") none db
      rw [heq] at hext
      simp only at hext
      obtain ⟨r, hr, hPr⟩ := hP
      rcases hext with hex | ⟨row, hex⟩
      · exact ⟨r, by simpa [dbOfExcept, hex] using hex ▸ hr, hPr⟩
      · exact ⟨r, by simp only [dbOfExcept]; rw [hex]; exact List.mem_append_left _ hr, hPr⟩
  · simpa [dbOfExcept] using hP

/-- Helper: the same preservation for the first linking block, under the
evolves-from backlink merge. -/
theorem exists_row_intoStep (f : LinkFaults) (pd : PokemonData) (db : DB)
    {P : Row → Prop} (hP : ∃ r ∈ db.rows, P r)
    (hpres : ∀ q, P q → P (applyPatch (evolvesFromPatch pd) q)) :
    ∃ r ∈ (dbOfExcept (linkEvolvesIntoStep f pd db)).rows, P r := by
  unfold linkEvolvesIntoStep
  split
  · split
    · next dbA evo heq =>
      have hext := findOrCreate_rows f.lookupInto f.createInto
        (pd.evolvesInto.getD "") none db
      rw [heq] at hext
      simp only at hext
      have hA : ∃ r ∈ dbA.rows, P r := by
        obtain ⟨r, hr, hPr⟩ := hP
        rcases hext with hex | ⟨row, hex⟩
        · exact ⟨r, hex ▸ hr, hPr⟩
        · exact ⟨r, by rw [hex]; exact List.mem_append_left _ hr, hPr⟩
      split
      · next dbB rB heq2 => simpa [dbOfExcept] using exists_row_update heq2 hA hpres
      · simpa [dbOfExcept] using hA
    · next dbA heq =>
      have hext := findOrCreate_rows f.lookupInto f.createInto
        (pd.evolvesInto.getD "") none db
      rw [heq] at hext
      simp only at hext
      obtain ⟨r, hr, hPr⟩ := hP
      rcases hext with hex | ⟨row, hex⟩
      · exact ⟨r, by simpa [dbOfExcept, hex] using hex ▸ hr, hPr⟩
      · exact ⟨r, by simp only [dbOfExcept]; rw [hex]; exact List.mem_append_left _ hr, hPr⟩
  · simpa [dbOfExcept] using hP

/-- Helper: a row satisfying a property preserved by both backlink merges
survives the whole evolution-linking step, for every injected fault and
whether or not the step fails midway. -/
theorem exists_row_linkEvolutions (f : LinkFaults) (pd : PokemonData) (db : DB)
    {P : Row → Prop} (hP : ∃ r ∈ db.rows, P r)
    (hpres1 : ∀ q, P q → P (applyPatch (evolvesFromPatch pd) q))
    (hpres2 : ∀ q, P q → P (applyPatch (evolvesIntoPatch pd) q)) :
    ∃ r ∈ (linkEvolutions f pd db).rows, P r := by
  unfold linkEvolutions linkEvolutionsTry
  split
  · next d heq =>
    have h1 := exists_row_intoStep f pd db hP hpres1
    rw [heq] at h1
    simpa [dbOfExcept] using h1
  · next db1 heq =>
    have h1 := exists_row_intoStep f pd db hP hpres1
    rw [heq] at h1
    simp only [dbOfExcept] at h1
    exact exists_row_fromStep f pd db1 h1 hpres2

/-- Helper: a successful primary submit save leaves a row carrying the
final identifier in the table. -/
theorem submitPrimarySave_ok_exists {fault : Option DbErr} {s : ClientState}
    {pd : PokemonData} {db db1 : DB} {fid : Nat}
    (h : submitPrimarySave fault s pd db = Except.ok (db1, fid)) :
    ∃ r ∈ db1.rows, r.id = fid := by
  unfold submitPrimarySave at h
  split at h
  · split at h
    · next heq =>
      simp only [Except.ok.injEq, Prod.mk.injEq] at h
      obtain ⟨h1, h2⟩ := h
      subst h1; subst h2
      exact updatePokemon_ok_exists_id heq
    · exact absurd h (by simp)
  · split at h
    · split at h
      · next heq =>
        simp only [Except.ok.injEq, Prod.mk.injEq] at h
        obtain ⟨h1, h2⟩ := h
        subst h1; subst h2
        exact updatePokemon_ok_exists_id heq
      · exact absurd h (by simp)
    · split at h
      · next db2 row heq =>
        simp only [Except.ok.injEq, Prod.mk.injEq] at h
        obtain ⟨h1, h2⟩ := h
        subst h1
        obtain ⟨hr, _, _⟩ := createPokemon_ok heq
        exact ⟨row, by rw [hr]; exact List.mem_append_right _ (List.mem_singleton_self row), h2⟩
      · exact absurd h (by simp)

/-- C3: if the primary create/update of a save path succeeds, any failure
of the subsequent evolution-linking step is swallowed: the path returns
normally with no error banner set, the record persisted by the primary
save is still present under its identifier, and on final submit the user
is still navigated to the detail page of that identifier.  Stated for
`onSubmit` and for both branches of `handleSaveDraft`, quantified over all
injected linking faults. -/
theorem linking_failure_swallowed :
    (∀ (f : SaveFaults) (s : ClientState) (form : PokemonData) (db db1 : DB) (fid : Nat),
        submitPrimarySave f.primary s (preparePokemonData s form) db = Except.ok (db1, fid) →
        (onSubmit f s form db).navigateTo = some fid ∧
        (onSubmit f s form db).state.saveError = none ∧
        ∃ r ∈ (onSubmit f s form db).db.rows, r.id = fid)
  ∧ (∀ (f : SaveFaults) (s : ClientState) (form : PokemonData) (db db1 : DB)
        (r0 : Row) (sid : Nat), s.savedPokemonId = some sid →
        updatePokemon none f.primary sid (patchOfData (preparePokemonData s form)) none db
          = Except.ok (db1, r0) →
        (handleSaveDraft f s form db).1.saveError = none ∧
        ∃ r ∈ (handleSaveDraft f s form db).2.rows, r.id = sid)
  ∧ (∀ (f : SaveFaults) (s : ClientState) (form : PokemonData) (db db1 : DB)
        (row : Row), s.savedPokemonId = none →
        createPokemon f.primary (preparePokemonData s form) db = Except.ok (db1, row) →
        (handleSaveDraft f s form db).1.saveError = none ∧
        (handleSaveDraft f s form db).1.savedPokemonId = some row.id ∧
        ∃ r ∈ (handleSaveDraft f s form db).2.rows, r.id = row.id) := by
  refine ⟨?_, ?_, ?_⟩
  · intro f s form db db1 fid h
    simp only [onSubmit, h]
    refine ⟨trivial, trivial, ?_⟩
    exact exists_row_linkEvolutions f.link (preparePokemonData s form) db1
      (submitPrimarySave_ok_exists h)
      (fun q hq => by rw [applyPatch_id]; exact hq)
      (fun q hq => by rw [applyPatch_id]; exact hq)
  · intro f s form db db1 r0 sid hsid h
    simp only [handleSaveDraft, hsid, h]
    refine ⟨trivial, ?_⟩
    exact exists_row_linkEvolutions f.link (preparePokemonData s form) db1
      (updatePokemon_ok_exists_id h)
      (fun q hq => by rw [applyPatch_id]; exact hq)
      (fun q hq => by rw [applyPatch_id]; exact hq)
  · intro f s form db db1 row hsid h
    simp only [handleSaveDraft, hsid, h]
    obtain ⟨hrows, _, _⟩ := createPokemon_ok h
    refine ⟨trivial, trivial, ?_⟩
    exact exists_row_linkEvolutions f.link (preparePokemonData s form) db1
      ⟨row, by rw [hrows]; exact List.mem_append_right _ (List.mem_singleton_self row), rfl⟩
      (fun q hq => by rw [applyPatch_id]; exact hq)
      (fun q hq => by rw [applyPatch_id]; exact hq)

/-- Witness for `linking_failure_swallowed`: a fresh submit whose primary
create succeeds, with a failing backend injected into every linking call
(the payload links an evolution, so the linking step really does fail). -/
theorem linking_failure_swallowed_witness :
    (submitPrimarySave none {}
        (preparePokemonData {}
          { name := "A", typePrimary := "Fire", evolvesInto := some "B" }) {}
      = Except.ok
          ({ rows := [rowOfData 0 (preparePokemonData {}
              { name := "A", typePrimary := "Fire", evolvesInto := some "B" })],
             nextId := 1 }, 0)) ∧
    ((onSubmit
        { link := { lookupInto := some { code := "500", message := "boom" },
                    createInto := some { code := "500", message := "boom" },
                    updateInto := some { code := "500", message := "boom" },
                    lookupFrom := some { code := "500", message := "boom" },
                    createFrom := some { code := "500", message := "boom" },
                    updateFrom := some { code := "500", message := "boom" } } } {}
        { name := "A", typePrimary := "Fire", evolvesInto := some "B" } {}).navigateTo = some 0 ∧
     (onSubmit
        { link := { lookupInto := some { code := "500", message := "boom" },
                    createInto := some { code := "500", message := "boom" },
                    updateInto := some { code := "500", message := "boom" },
                    lookupFrom := some { code := "500", message := "boom" },
                    createFrom := some { code := "500", message := "boom" },
                    updateFrom := some { code := "500", message := "boom" } } } {}
        { name := "A", typePrimary := "Fire", evolvesInto := some "B" } {}).state.saveError = none ∧
     ∃ r ∈ (onSubmit
        { link := { lookupInto := some { code := "500", message := "boom" },
                    createInto := some { code := "500", message := "boom" },
                    updateInto := some { code := "500", message := "boom" },
                    lookupFrom := some { code := "500", message := "boom" },
                    createFrom := some { code := "500", message := "boom" },
                    updateFrom := some { code := "500", message := "boom" } } } {}
        { name := "A", typePrimary := "Fire", evolvesInto := some "B" } {}).db.rows, r.id = 0) :=
  ⟨rfl,
   linking_failure_swallowed.1
     { link := { lookupInto := some { code := "500", message := "boom" },
                 createInto := some { code := "500", message := "boom" },
                 updateInto := some { code := "500", message := "boom" },
                 lookupFrom := some { code := "500", message := "boom" },
                 createFrom := some { code := "500", message := "boom" },
                 updateFrom := some { code := "500", message := "boom" } } } {}
     { name := "A", typePrimary := "Fire", evolvesInto := some "B" } {}
     { rows := [rowOfData 0 (preparePokemonData {}
         { name := "A", typePrimary := "Fire", evolvesInto := some "B" })],
       nextId := 1 } 0 rfl⟩

/-- C2 counterexample: the backlink is dropped when the saved record has an
empty name.  A record A with name empty (a draft saved without a name) and
evolves-into B: the linking step creates the stub B with default type
Normal, but the `evolvesFrom: pokemonData.name` entry of the update object
is truthiness-guarded, so the empty name is omitted and the stub ends with
no evolves-from value — not A.name — and the two sides do not agree. -/
theorem evolution_link_empty_name_cex :
    (((linkEvolutions {} { name := "", typePrimary := "Normal", evolvesInto := some "B" }
        { rows := [rowOfData 0 { name := "", typePrimary := "Normal", evolvesInto := some "B" }],
          nextId := 1 }).rows.filter (fun r => r.name == "B")).map
      (fun r => (r.typePrimary, r.evolvesFrom)) = [("Normal", none)]) ∧
    ((none : Option String) ≠
      some ({ name := "", typePrimary := "Normal",
              evolvesInto := some "B" } : PokemonData).name) :=
  ⟨by decide, by decide⟩

/-- C2 amended: after a successful save of a record A with a nonempty name
whose evolves-into field names B, if no record matching B
(case-insensitively) exists — in particular right after the primary save —
then the linking step creates a stub named B (trimmed) with default
primary type Normal and sets its evolves-from field to the name of A, so
both sides agree.  (The database argument is the table as the linking step
sees it, after the primary save; well-formedness of the id supply is the
standing backend invariant.) -/
theorem evolution_link_creates_stub_and_backlink
    (pd : PokemonData) (db : DB) (b : String)
    (hwf : DBWf db) (hname : pd.name ≠ "")
    (hinto : pd.evolvesInto = some b) (hb : strTrim b ≠ "")
    (hnomatch : matchesByNameCI b db = []) :
    ∃ r ∈ (linkEvolutions {} pd db).rows,
      r.name = strTrim b ∧ r.typePrimary = "Normal" ∧ r.evolvesFrom = some pd.name := by
  have hb0 : b ≠ "" := by
    intro hcon
    exact hb (by rw [hcon]; rfl)
  have htruthy : jsTruthyStr pd.evolvesInto = true := by
    simp [jsTruthyStr, hinto, hb0]
  have hgetD : pd.evolvesInto.getD "" = b := by rw [hinto]; rfl
  have hfc : findOrCreatePokemonByName none none b none db =
      ({ rows := db.rows ++
          [rowOfData db.nextId { name := strTrim b, typePrimary := "Normal", userId := none }],
         nextId := db.nextId + 1 },
       some (rowOfData db.nextId
          { name := strTrim b, typePrimary := "Normal", userId := none })) := by
    simp [findOrCreatePokemonByName, hb0, hb, getPokemonByName, getPokemonByNameTry,
      hnomatch, createPokemon]
  have hfilter : (db.rows ++
        [rowOfData db.nextId { name := strTrim b, typePrimary := "Normal", userId := none }]).filter
        (fun q => q.id == db.nextId) =
      [rowOfData db.nextId { name := strTrim b, typePrimary := "Normal", userId := none }] := by
    rw [List.filter_append, filter_id_nil db.rows db.nextId hwf]
    simp [rowOfData]
  have hupd : updatePokemon none none db.nextId (evolvesFromPatch pd) none
      { rows := db.rows ++
          [rowOfData db.nextId { name := strTrim b, typePrimary := "Normal", userId := none }],
        nextId := db.nextId + 1 } =
      Except.ok
        ({ rows := (db.rows ++
            [rowOfData db.nextId { name := strTrim b, typePrimary := "Normal", userId := none }]).map
              (fun q => if q.id == db.nextId then applyPatch (evolvesFromPatch pd) q else q),
           nextId := db.nextId + 1 },
         applyPatch (evolvesFromPatch pd)
           (rowOfData db.nextId { name := strTrim b, typePrimary := "Normal", userId := none })) := by
    simp only [updatePokemon, verifyOwnership]
    rw [hfilter]
  have hstep : linkEvolvesIntoStep {} pd db =
      Except.ok
        { rows := (db.rows ++
            [rowOfData db.nextId { name := strTrim b, typePrimary := "Normal", userId := none }]).map
              (fun q => if q.id == db.nextId then applyPatch (evolvesFromPatch pd) q else q),
          nextId := db.nextId + 1 } := by
    simp only [linkEvolvesIntoStep, htruthy, hgetD, if_true]
    rw [hfc]
    simp only [rowOfData] at hupd ⊢
    rw [hupd]
  have hmem : ∃ r ∈ ((db.rows ++
        [rowOfData db.nextId { name := strTrim b, typePrimary := "Normal", userId := none }]).map
          (fun q => if q.id == db.nextId then applyPatch (evolvesFromPatch pd) q else q)),
      r.name = strTrim b ∧ r.typePrimary = "Normal" ∧ r.evolvesFrom = some pd.name := by
    refine ⟨if (rowOfData db.nextId
        { name := strTrim b, typePrimary := "Normal", userId := none }).id == db.nextId then
          applyPatch (evolvesFromPatch pd)
            (rowOfData db.nextId { name := strTrim b, typePrimary := "Normal", userId := none })
        else rowOfData db.nextId { name := strTrim b, typePrimary := "Normal", userId := none },
      List.mem_map_of_mem _
        (List.mem_append_right _ (List.mem_singleton_self _)), ?_⟩
    rw [if_pos (by simp [rowOfData])]
    refine ⟨?_, ?_, ?_⟩
    · simp [applyPatch, evolvesFromPatch, updStrReq, rowOfData]
    · simp [applyPatch, evolvesFromPatch, updStrReq, rowOfData]
    · simp [applyPatch, evolvesFromPatch, updStr, hname, rowOfData]
  unfold linkEvolutions linkEvolutionsTry
  rw [hstep]
  exact exists_row_fromStep {} pd _ hmem
    (fun q hq => by
      refine ⟨?_, ?_, ?_⟩
      · rw [show (applyPatch (evolvesIntoPatch pd) q).name = q.name from by
          simp [applyPatch, evolvesIntoPatch, updStrReq]]
        exact hq.1
      · rw [show (applyPatch (evolvesIntoPatch pd) q).typePrimary = q.typePrimary from by
          simp [applyPatch, evolvesIntoPatch, updStrReq]]
        exact hq.2.1
      · rw [show (applyPatch (evolvesIntoPatch pd) q).evolvesFrom = q.evolvesFrom from by
          simp [applyPatch, evolvesIntoPatch, updStr]]
        exact hq.2.2)

/-- Witness for `evolution_link_creates_stub_and_backlink`: Charmander
evolves into Charmeleon on an empty table. -/
theorem evolution_link_creates_stub_and_backlink_witness :
    (DBWf {} ∧ ("Charmander" : String) ≠ "" ∧
     ({ name := "Charmander", typePrimary := "Fire", evolvesInto := some "Charmeleon" } : PokemonData).evolvesInto = some "Charmeleon" ∧
     strTrim "Charmeleon" ≠ "" ∧ matchesByNameCI "Charmeleon" {} = []) ∧
    (∃ r ∈ (linkEvolutions {} { name := "Charmander", typePrimary := "Fire", evolvesInto := some "Charmeleon" } {}).rows,
      r.name = strTrim "Charmeleon" ∧ r.typePrimary = "Normal" ∧
      r.evolvesFrom = some ({ name := "Charmander", typePrimary := "Fire", evolvesInto := some "Charmeleon" } : PokemonData).name) :=
  ⟨⟨by decide, by decide, rfl, by decide, by decide⟩,
   evolution_link_creates_stub_and_backlink
     { name := "Charmander", typePrimary := "Fire", evolvesInto := some "Charmeleon" }
     {} "Charmeleon" (by decide) (by decide) rfl (by decide) (by decide)⟩

/-- Helper: unfolding one step of a session run. -/
theorem sessRun_cons (s : SessState) (op : SaveOp) (ops : List SaveOp) :
    sessRun s (op :: ops) =
      ((sessRun (sessStep s op).1 ops).1,
       (sessStep s op).2 ++ (sessRun (sessStep s op).1 ops).2) := rfl

/-- Helper: the invariant in the state where a record has been persisted
(or the session has ended). -/
theorem sessInv_pos {s : SessState} {tr : List WriteEv}
    (hc : s.ended = true ∨ s.savedPokemonId.isSome) :
    sessInv s tr ↔ ∃ i pre post, tr = pre ++ WriteEv.createEv i true :: post ∧
      allFailedCreates pre ∧ allUpdatesTo i post ∧
      (s.ended = false → s.savedPokemonId = some i) := by
  unfold sessInv
  rw [if_pos hc]

/-- Helper: the invariant in the state before any successful persistence. -/
theorem sessInv_neg {s : SessState} {tr : List WriteEv}
    (hc : ¬(s.ended = true ∨ s.savedPokemonId.isSome)) :
    sessInv s tr ↔ allFailedCreates tr := by
  unfold sessInv
  rw [if_neg hc]

/-- Helper: an update against the remembered identifier preserves the
invariant. -/
theorem sessInv_update_same {s : SessState} {tr : List WriteEv} {i : Nat}
    (ok : Bool) (hE : s.ended = false) (hsid : s.savedPokemonId = some i)
    (h : sessInv s tr) :
    sessInv s (tr ++ [WriteEv.updateEv i ok]) := by
  have hc : s.ended = true ∨ s.savedPokemonId.isSome := Or.inr (by simp [hsid])
  obtain ⟨i0, pre, post, htr, hpre, hpost, himpl⟩ := (sessInv_pos hc).1 h
  have hi0 : i0 = i := by
    have := himpl hE
    rw [hsid] at this
    exact (Option.some.injEq _ _ ▸ this).symm
  subst hi0
  refine (sessInv_pos hc).2 ⟨i0, pre, post ++ [WriteEv.updateEv i0 ok], ?_, hpre, ?_, himpl⟩
  · rw [htr]
    simp
  · intro e he
    rcases List.mem_append.1 he with he | he
    · exact hpost e he
    · rw [List.mem_singleton.1 he]
      simp [WriteEv.isUpdateTo]

/-- Helper: a first successful creation, whose identifier is remembered,
establishes the persisted-state invariant. -/
theorem sessInv_create_store {s : SessState} {tr : List WriteEv}
    (hE : s.ended = false) (hsid : s.savedPokemonId = none)
    (h : sessInv s tr) :
    sessInv { s with savedPokemonId := some s.nextId, nextId := s.nextId + 1 }
      (tr ++ [WriteEv.createEv s.nextId true]) := by
  have hc0 : ¬(s.ended = true ∨ s.savedPokemonId.isSome) := by
    simp [hE, hsid]
  have hfail := (sessInv_neg hc0).1 h
  refine (sessInv_pos (Or.inr (by simp))).2
    ⟨s.nextId, tr, [], by simp, hfail, ?_, fun _ => by simp⟩
  intro e he
  cases he

/-- Helper: a failed creation attempt preserves the pre-persistence
invariant. -/
theorem sessInv_create_fail {s : SessState} {tr : List WriteEv}
    (hE : s.ended = false) (hsid : s.savedPokemonId = none)
    (h : sessInv s tr) :
    sessInv s (tr ++ [WriteEv.createEv s.nextId false]) := by
  have hc0 : ¬(s.ended = true ∨ s.savedPokemonId.isSome) := by
    simp [hE, hsid]
  have hfail := (sessInv_neg hc0).1 h
  refine (sessInv_neg hc0).2 ?_
  intro e he
  rcases List.mem_append.1 he with he | he
  · exact hfail e he
  · rw [List.mem_singleton.1 he]
    rfl

/-- Helper: a successful final submit through the update path ends the
session, preserving the invariant. -/
theorem sessInv_submit_update {s : SessState} {tr : List WriteEv} {i : Nat}
    (hE : s.ended = false) (hsid : s.savedPokemonId = some i)
    (h : sessInv s tr) :
    sessInv { s with ended := true } (tr ++ [WriteEv.updateEv i true]) := by
  have hc : s.ended = true ∨ s.savedPokemonId.isSome := Or.inr (by simp [hsid])
  obtain ⟨i0, pre, post, htr, hpre, hpost, himpl⟩ := (sessInv_pos hc).1 h
  have hi0 : i0 = i := by
    have := himpl hE
    rw [hsid] at this
    exact (Option.some.injEq _ _ ▸ this).symm
  subst hi0
  refine (sessInv_pos (Or.inl (by simp))).2
    ⟨i0, pre, post ++ [WriteEv.updateEv i0 true], ?_, hpre, ?_, ?_⟩
  · rw [htr]
    simp
  · intro e he
    rcases List.mem_append.1 he with he | he
    · exact hpost e he
    · rw [List.mem_singleton.1 he]
      simp [WriteEv.isUpdateTo]
  · intro hcon
    simp at hcon

/-- Helper: a successful final submit through the brand-new-create path
ends the session with exactly that one creation on record. -/
theorem sessInv_submit_create {s : SessState} {tr : List WriteEv}
    (hE : s.ended = false) (hsid : s.savedPokemonId = none)
    (h : sessInv s tr) :
    sessInv { s with ended := true, nextId := s.nextId + 1 }
      (tr ++ [WriteEv.createEv s.nextId true]) := by
  have hc0 : ¬(s.ended = true ∨ s.savedPokemonId.isSome) := by
    simp [hE, hsid]
  have hfail := (sessInv_neg hc0).1 h
  refine (sessInv_pos (Or.inl (by simp))).2
    ⟨s.nextId, tr, [], by simp, hfail, ?_, ?_⟩
  · intro e he
    cases he
  · intro hcon
    simp at hcon

/-- Helper: every session step preserves the invariant. -/
theorem sessStep_inv (s : SessState) (op : SaveOp) (tr : List WriteEv)
    (h : sessInv s tr) :
    sessInv (sessStep s op).1 (tr ++ (sessStep s op).2) := by
  cases hE : s.ended with
  | true =>
    have hstep : sessStep s op = (s, []) := by simp [sessStep, hE]
    rw [hstep]
    simpa using h
  | false =>
    cases op with
    | autoOp nameEmpty ok =>
      cases nameEmpty with
      | true =>
        have hstep : sessStep s (SaveOp.autoOp true ok) = (s, []) := by
          simp [sessStep, hE]
        rw [hstep]
        simpa using h
      | false =>
        cases hsid : s.savedPokemonId with
        | some i =>
          have hstep : sessStep s (SaveOp.autoOp false ok) = (s, [WriteEv.updateEv i ok]) := by
            simp [sessStep, hE, hsid]
          rw [hstep]
          exact sessInv_update_same ok hE hsid h
        | none =>
          cases ok with
          | true =>
            have hstep : sessStep s (SaveOp.autoOp false true) =
                ({ s with savedPokemonId := some s.nextId, nextId := s.nextId + 1 },
                 [WriteEv.createEv s.nextId true]) := by
              simp [sessStep, hE, hsid]
            rw [hstep]
            exact sessInv_create_store hE hsid h
          | false =>
            have hstep : sessStep s (SaveOp.autoOp false false) =
                (s, [WriteEv.createEv s.nextId false]) := by
              simp [sessStep, hE, hsid]
            rw [hstep]
            exact sessInv_create_fail hE hsid h
    | draftOp ok =>
      cases hsid : s.savedPokemonId with
      | some i =>
        have hstep : sessStep s (SaveOp.draftOp ok) = (s, [WriteEv.updateEv i ok]) := by
          simp [sessStep, hE, hsid]
        rw [hstep]
        exact sessInv_update_same ok hE hsid h
      | none =>
        cases ok with
        | true =>
          have hstep : sessStep s (SaveOp.draftOp true) =
              ({ s with savedPokemonId := some s.nextId, nextId := s.nextId + 1 },
               [WriteEv.createEv s.nextId true]) := by
            simp [sessStep, hE, hsid]
          rw [hstep]
          exact sessInv_create_store hE hsid h
        | false =>
          have hstep : sessStep s (SaveOp.draftOp false) =
              (s, [WriteEv.createEv s.nextId false]) := by
            simp [sessStep, hE, hsid]
          rw [hstep]
          exact sessInv_create_fail hE hsid h
    | submitOp ok =>
      cases hsid : s.savedPokemonId with
      | some i =>
        cases ok with
        | true =>
          have hstep : sessStep s (SaveOp.submitOp true) =
              ({ s with ended := true }, [WriteEv.updateEv i true]) := by
            simp [sessStep, hE, hsid]
          rw [hstep]
          exact sessInv_submit_update hE hsid h
        | false =>
          have hstep : sessStep s (SaveOp.submitOp false) =
              (s, [WriteEv.updateEv i false]) := by
            simp [sessStep, hE, hsid]
          rw [hstep]
          exact sessInv_update_same false hE hsid h
      | none =>
        cases ok with
        | true =>
          have hstep : sessStep s (SaveOp.submitOp true) =
              ({ s with ended := true, nextId := s.nextId + 1 },
               [WriteEv.createEv s.nextId true]) := by
            simp [sessStep, hE, hsid]
          rw [hstep]
          exact sessInv_submit_create hE hsid h
        | false =>
          have hstep : sessStep s (SaveOp.submitOp false) =
              (s, [WriteEv.createEv s.nextId false]) := by
            simp [sessStep, hE, hsid]
          rw [hstep]
          exact sessInv_create_fail hE hsid h

/-- Helper: the invariant holds along any whole session run. -/
theorem sessRun_inv (ops : List SaveOp) (s : SessState) (tr : List WriteEv)
    (h : sessInv s tr) :
    sessInv (sessRun s ops).1 (tr ++ (sessRun s ops).2) := by
  induction ops generalizing s tr with
  | nil => simpa [sessRun] using h
  | cons op ops ih =>
    rw [sessRun_cons]
    have := ih (sessStep s op).1 (tr ++ (sessStep s op).2) (sessStep_inv s op tr h)
    simpa [List.append_assoc] using this

/-- Helper: a failed creation attempt is not a successful write. -/
theorem isOk_false_of_failedCreate {e : WriteEv} (h : e.isFailedCreate = true) :
    e.isOk = false := by
  cases e with
  | createEv i ok => simpa [WriteEv.isFailedCreate, WriteEv.isOk] using h
  | updateEv i ok => simp [WriteEv.isFailedCreate] at h

/-- Helper: a failed creation attempt is not a successful creation. -/
theorem isCreateOk_false_of_failedCreate {e : WriteEv} (h : e.isFailedCreate = true) :
    e.isCreateOk = false := by
  cases e with
  | createEv i ok => simpa [WriteEv.isFailedCreate, WriteEv.isCreateOk] using h
  | updateEv i ok => rfl

/-- Helper: an update is not a successful creation. -/
theorem isCreateOk_false_of_updateTo {i : Nat} {e : WriteEv}
    (h : e.isUpdateTo i = true) : e.isCreateOk = false := by
  cases e with
  | createEv j ok => simp [WriteEv.isUpdateTo] at h
  | updateEv j ok => rfl

/-- Helper: a trace of writes none of which is a successful creation
contributes nothing to the created count. -/
theorem filter_isCreateOk_nil {tr : List WriteEv}
    (h : ∀ e ∈ tr, e.isCreateOk = false) :
    tr.filter WriteEv.isCreateOk = [] := by
  induction tr with
  | nil => rfl
  | cons a t ih =>
    have ha := h a (by simp)
    rw [List.filter_cons, ha]
    simpa using ih fun e he => h e (by simp [he])

/-- C1: in any fresh creation session, whatever sequence of auto-saves,
manual draft-saves and final submits runs (each possibly failing), if at
least one backend write succeeds then exactly one record is created: the
first successful write is a creation with some backend-assigned identifier
`i`, every earlier attempt failed, every later write of the session is an
update against that same `i`, and while the session has not yet ended by a
successful final submit, `savedPokemonId` holds `i`. -/
theorem session_creates_exactly_one (startId : Nat) (ops : List SaveOp)
    (hsucc : ∃ e ∈ (sessRun (freshSession startId) ops).2, e.isOk = true) :
    createdCount (sessRun (freshSession startId) ops).2 = 1 ∧
    ∃ i pre post,
      (sessRun (freshSession startId) ops).2
        = pre ++ WriteEv.createEv i true :: post ∧
      (∀ e ∈ pre, e.isOk = false) ∧
      allUpdatesTo i post ∧
      ((sessRun (freshSession startId) ops).1.ended = false →
        (sessRun (freshSession startId) ops).1.savedPokemonId = some i) := by
  have h0 : sessInv (freshSession startId) [] := by
    have hc0 : ¬((freshSession startId).ended = true ∨
        (freshSession startId).savedPokemonId.isSome) := by
      simp [freshSession]
    refine (sessInv_neg hc0).2 ?_
    intro e he
    cases he
  have hinv := sessRun_inv ops (freshSession startId) [] h0
  rw [List.nil_append] at hinv
  by_cases hc : ((sessRun (freshSession startId) ops).1.ended = true ∨
      (sessRun (freshSession startId) ops).1.savedPokemonId.isSome)
  · obtain ⟨i, pre, post, htr, hpre, hpost, himpl⟩ := (sessInv_pos hc).1 hinv
    constructor
    · rw [htr]
      unfold createdCount
      rw [List.filter_append, List.filter_cons]
      rw [filter_isCreateOk_nil fun e he => isCreateOk_false_of_failedCreate (hpre e he)]
      rw [filter_isCreateOk_nil fun e he => isCreateOk_false_of_updateTo (hpost e he)]
      rfl
    · exact ⟨i, pre, post, htr,
        fun e he => isOk_false_of_failedCreate (hpre e he), hpost, himpl⟩
  · exfalso
    obtain ⟨e, he, hok⟩ := hsucc
    have := (sessInv_neg hc).1 hinv e he
    rw [isOk_false_of_failedCreate this] at hok
    exact Bool.false_ne_true hok

/-- Witness for `session_creates_exactly_one`: a session running a
successful draft-save, then a successful auto-save, then a successful
final submit. -/
theorem session_creates_exactly_one_witness :
    (∃ e ∈ (sessRun (freshSession 0)
        [SaveOp.draftOp true, SaveOp.autoOp false true, SaveOp.submitOp true]).2,
      e.isOk = true) ∧
    (createdCount (sessRun (freshSession 0)
        [SaveOp.draftOp true, SaveOp.autoOp false true, SaveOp.submitOp true]).2 = 1 ∧
     ∃ i pre post,
       (sessRun (freshSession 0)
           [SaveOp.draftOp true, SaveOp.autoOp false true, SaveOp.submitOp true]).2
         = pre ++ WriteEv.createEv i true :: post ∧
       (∀ e ∈ pre, e.isOk = false) ∧
       allUpdatesTo i post ∧
       ((sessRun (freshSession 0)
           [SaveOp.draftOp true, SaveOp.autoOp false true, SaveOp.submitOp true]).1.ended = false →
         (sessRun (freshSession 0)
             [SaveOp.draftOp true, SaveOp.autoOp false true, SaveOp.submitOp true]).1.savedPokemonId
           = some i)) :=
  ⟨by decide,
   session_creates_exactly_one 0
     [SaveOp.draftOp true, SaveOp.autoOp false true, SaveOp.submitOp true] (by decide)⟩

end Pokemaker
